import Mathlib

/-!
# WhatsApp multi-tenant session service

A shallow embedding of `pkg/domains/whatsapp/service.go` and a verification of
its session registry, connection life cycle, pairing flow, dispatcher and event
processing, together with the token issuing of `pkg/domains/auth/service.go`.

Modelling conventions

* Go strings are Lean `String`s.  The only place where the byte view matters is
  `len(cleanPhone)` in `formatPhoneNumber`, which is embedded as
  `String.utf8ByteSize`.
* Go `uint` tenant ids are natural numbers; no arithmetic is performed on them.
* A Go `error` result is `Option String` (`none` is `nil`), a `(value, error)`
  result is `Except String value`; the text is the text of `err.Error()`.
* The service object is the `World`: the `sessions` map, the rows of the
  `whatsapp_sessions` table keyed by `user_id`, the ids present in the `users`
  table (which the foreign key of `user_id` refers to), the clock read by `time.Now()`,
  and a ghost `trace` recording, in order, every call the service makes on an
  external collaborator (client library, credential store, durable store,
  goroutine start, cancellation, channel close).
* A `*UserSession` stored in the map is embedded by value; a mutation through the
  pointer is written back to the map entry.
* The `whatsmeow` client library is not part of the repository.  Its behaviour is
  a parameter (`Whatsmeow C`): every theorem holds for every behaviour of the
  library.
* `log.Printf` lines of the request paths are not part of the model.
* Public operations are embedded as sequential state transformers, i.e. as they
  run when no other goroutine touches the same session meanwhile.
-/

namespace WhatsApp

deriving instance DecidableEq for Except

/-! ## Data model -/

/-- The `types.JID` of the client library, restricted to the two fields `NewJID` sets. -/
structure JID where
  User : String
  Server : String
deriving DecidableEq, Repr

/-- The `types.DefaultUserServer` constant of the client library. -/
def DefaultUserServer : String := "s.whatsapp.net"

/-- The `types.NewJID` constructor of the client library. -/
def NewJID (user server : String) : JID := { User := user, Server := server }

/-- The `waProto.ImageMessage` payload, with the fields the service populates. -/
structure ImageMessage where
  URL : Option String
  Mimetype : Option String
  Caption : Option String
  FileSHA256 : List UInt8
  FileLength : Option Nat
  Height : Option Nat
  Width : Option Nat
  DirectPath : Option String
  MediaKey : List UInt8
  FileEncSHA256 : List UInt8
deriving DecidableEq, Repr

/-- The `waProto.VideoMessage` payload; `Height` and `Width` exist in the schema and the
service leaves them unset. -/
structure VideoMessage where
  URL : Option String
  Mimetype : Option String
  Caption : Option String
  FileSHA256 : List UInt8
  FileLength : Option Nat
  Height : Option Nat
  Width : Option Nat
  DirectPath : Option String
  MediaKey : List UInt8
  FileEncSHA256 : List UInt8
deriving DecidableEq, Repr

/-- The `waProto.AudioMessage` payload. -/
structure AudioMessage where
  URL : Option String
  Mimetype : Option String
  FileSHA256 : List UInt8
  FileLength : Option Nat
  DirectPath : Option String
  MediaKey : List UInt8
  FileEncSHA256 : List UInt8
deriving DecidableEq, Repr

/-- The `waProto.DocumentMessage` payload. -/
structure DocumentMessage where
  URL : Option String
  Mimetype : Option String
  Title : Option String
  FileSHA256 : List UInt8
  FileLength : Option Nat
  DirectPath : Option String
  MediaKey : List UInt8
  FileEncSHA256 : List UInt8
deriving DecidableEq, Repr

/-- The `waProto.ExtendedTextMessage` payload (only its text is read). -/
structure ExtendedTextMessage where
  Text : String
deriving DecidableEq, Repr

/-- The `waProto.Message` envelope: every variant is an optional pointer. -/
structure Message where
  Conversation : Option String := none
  ExtendedTextMessage : Option ExtendedTextMessage := none
  ImageMessage : Option ImageMessage := none
  VideoMessage : Option VideoMessage := none
  AudioMessage : Option AudioMessage := none
  DocumentMessage : Option DocumentMessage := none
deriving DecidableEq, Repr

/-- The `types.MessageInfo` of an inbound event: rendered source and network timestamp. -/
structure MessageInfo where
  Source : String
  Timestamp : Nat
deriving DecidableEq, Repr

/-- The `events.Message` inbound event. -/
structure MessageEvent where
  Info : MessageInfo
  Message : Option Message
deriving DecidableEq, Repr

/-- The media kinds of `whatsmeow.MediaType` the dispatcher uses. -/
inductive MediaType where
  | MediaImage
  | MediaVideo
  | MediaAudio
  | MediaDocument
deriving DecidableEq, Repr

/-- The `whatsmeow.UploadResponse`, with the fields the service reads. -/
structure UploadResponse where
  URL : String
  DirectPath : String
  MediaKey : List UInt8
  FileEncSHA256 : List UInt8
  FileSHA256 : List UInt8
  FileLength : Nat
deriving DecidableEq, Repr

/-- The `whatsmeow.SendResponse`, with the fields the service reads. -/
structure SendResponse where
  ID : String
  Timestamp : Nat
deriving DecidableEq, Repr

/-- The `whatsmeow.QRChannelItem` delivered on the pairing channel. -/
structure QRChannelItem where
  Event : String
  Code : String
  Error : Option String
deriving DecidableEq, Repr

/-- The `types.ContactInfo` of the client library. -/
structure ContactInfo where
  Found : Bool
  FirstName : String
  FullName : String
  PushName : String
  BusinessName : String
deriving DecidableEq, Repr

/-- The `map[types.JID]types.ContactInfo` returned by the contact store. -/
abbrev Contacts := List (JID × ContactInfo)

/-- An open `*sqlstore.Container` (the per-session in-memory credential store). -/
structure Container where
  handle : Nat
deriving DecidableEq, Repr

/-- The `*store.Device` obtained from the credential store. -/
structure Device where
  handle : Nat
deriving DecidableEq, Repr

/-- The `context.CancelFunc` of a session. -/
structure CancelFunc where
  mk ::
deriving DecidableEq, Repr

/-- The `dtos.SendMessageDTO` request. -/
structure SendMessageDTO where
  PhoneNumber : String
  Message : String
deriving DecidableEq, Repr

/-- The `dtos.SendMediaMessageDTO` request. -/
structure SendMediaMessageDTO where
  PhoneNumber : String
  Caption : String
  MediaData : List UInt8
  MimeType : String
  Height : Nat
  Width : Nat
deriving DecidableEq, Repr

/-- The `dtos.MessageResponseDTO` response. -/
structure MessageResponseDTO where
  MessageID : String
  Timestamp : String
  Status : String
  To : String
deriving DecidableEq, Repr

/-- The `entities.WhatsAppSession` row: the columns the service writes, except `UserID`,
which is the key under which the table holds the row.  The remaining columns keep their
zero values and are never read. -/
structure WhatsAppSession where
  IsConnected : Bool
  IsLoggedIn : Bool
  LastActiveAt : Nat
deriving DecidableEq, Repr

/-- The `UserSession` of a tenant, as it is held by the `sessions` map.  `EventChan` is
`nil` or an open channel with its buffered events: a channel is closed only by
`removeUserSession`, in the critical section that also deletes the entry.  `Ctx` and
`Cancel` are one cancellable context, represented by the cancel function. -/
structure UserSession (C : Type) where
  UserID : Nat
  Client : Option C
  DB : Option Container
  EventChan : Option (List MessageEvent)
  IsConnected : Bool
  Cancel : Option CancelFunc

/-- The behaviour of the external client library on a client state `C`.  State-changing
primitives return the client state after the call. -/
structure Whatsmeow (C : Type) where
  /-- The call `sqlstore.New` made for the session of the given tenant. -/
  New : Nat → Except String Container
  /-- The method `Container.GetFirstDevice`. -/
  GetFirstDevice : Container → Except String Device
  /-- The constructor `whatsmeow.NewClient`. -/
  NewClient : Device → C
  /-- The method `Client.AddEventHandler`. -/
  AddEventHandler : C → C
  /-- The field `Client.Store.ID` (`none` is `nil`: no identity). -/
  StoreID : C → Option JID
  /-- The method `Client.IsConnected` (transport state). -/
  IsConnected : C → Bool
  /-- The method `Client.Connect`. -/
  Connect : C → Option String × C
  /-- The method `Client.Disconnect`. -/
  Disconnect : C → C
  /-- The method `Client.SendMessage`. -/
  SendMessage : C → JID → Message → Except String SendResponse × C
  /-- The method `Client.Upload`. -/
  Upload : C → List UInt8 → MediaType → Except String UploadResponse × C
  /-- The method `Client.GetQRChannel`: the items the channel delivers before it closes. -/
  GetQRChannel : C → Except String (List QRChannelItem) × C
  /-- The method `Client.Store.Contacts.GetAllContacts`. -/
  GetAllContacts : C → Except String Contacts
  /-- The rendering `Time.Format(time.RFC3339)`. -/
  FormatRFC3339 : Nat → String

/-- A call made by the service on an external collaborator. -/
inductive Call where
  | sqlstoreNew (userID : Nat)
  | getFirstDevice (userID : Nat)
  | newClient (userID : Nat)
  | addEventHandler (userID : Nat)
  | goEventProcessor (userID : Nat)
  | cancel (userID : Nat)
  | closeEventChan (userID : Nat)
  | clientDisconnect (userID : Nat)
  | dbClose (userID : Nat)
  | clientConnect (userID : Nat)
  | getQRChannel (userID : Nat)
  | sendMessage (userID : Nat) (recipient : JID) (msg : Message)
  | upload (userID : Nat) (data : List UInt8) (mediaType : MediaType)
  | getAllContacts (userID : Nat)
  | dbCreate (userID : Nat) (row : WhatsAppSession)
  | dbSave (userID : Nat) (row : WhatsAppSession)
deriving DecidableEq, Repr

/-- The state of the service and of the collaborators it owns. -/
structure World (C : Type) where
  /-- The `sessions` map of the service. -/
  sessions : Nat → Option (UserSession C)
  /-- The rows of the durable `whatsapp_sessions` table, by `user_id` (a unique index). -/
  db : Nat → Option WhatsAppSession
  /-- The ids of the rows of the `users` table, the target of the foreign key that the
  relation `User User` with `foreignKey:UserID` gives to `user_id`. -/
  users : Nat → Bool
  /-- The reading of `time.Now()`. -/
  now : Nat
  /-- The external calls made so far, oldest first. -/
  trace : List Call

/-- The state produced by `NewService()` over an empty durable status table and a `users`
table in which every id other than 0 is registered (the key sequence of `users` starts at
1, so no user has the id 0). -/
def NewService (C : Type) (now : Nat) : World C :=
  { sessions := fun _ => none, db := fun _ => none, users := fun userID => userID != 0,
    now := now, trace := [] }

/-- Append a call to the trace. -/
def World.call {C : Type} (w : World C) (c : Call) : World C :=
  { w with trace := w.trace ++ [c] }

/-- The assignment `s.sessions[userID] = session` (also: a write through the pointer). -/
def World.setSession {C : Type} (w : World C) (userID : Nat) (session : UserSession C) :
    World C :=
  { w with sessions := Function.update w.sessions userID (some session) }

/-- The statement `delete(s.sessions, userID)`. -/
def World.deleteSession {C : Type} (w : World C) (userID : Nat) : World C :=
  { w with sessions := Function.update w.sessions userID none }

/-! ## Caller context -/

/-- A value stored in a request context. -/
inductive CtxValue where
  | uint (n : Nat)
  | other
deriving DecidableEq, Repr

/-- A `context.Context`: a `*gin.Context` with its key/value store, or any other kind. -/
inductive Context where
  | gin (keys : String → Option CtxValue)
  | other

/-- The key `state.CurrentUserId`. -/
def CurrentUserId : String := "CurrentUserId"

/-- The source function `getUserIDFromContext`. -/
def getUserIDFromContext (ctx : Context) : Except String Nat :=
  match ctx with
  | .gin keys =>
    match keys CurrentUserId with
    | none => .error "user ID not found in context"
    | some (.uint uid) => .ok uid
    | some _ => .error "invalid user ID type in context"
  | .other => .error "invalid context type"

/-- The gin context the authentication middleware builds for a tenant. -/
def ginContextFor (userID : Nat) : Context :=
  .gin (fun k => if k = CurrentUserId then some (.uint userID) else none)

/-! ## Recipient normalisation -/

/-- The characters the pattern `[^\d+]` does not match: ASCII digits and `+`.  (In Go's
regexp syntax `\d` is `[0-9]`; every other rune, and every byte of an invalid encoding, is
matched and therefore replaced by the empty string.) -/
def keptByRegexp (c : Char) : Bool := c.isDigit || c == '+'

/-- The call `re.ReplaceAllString(phoneNumber, "")` for `re = [^\d+]`. -/
def ReplaceAllString (phoneNumber : String) : String :=
  String.mk (phoneNumber.data.filter keptByRegexp)

/-- The library function `strings.HasPrefix`. -/
def HasPrefix (s pre : String) : Bool := pre.data.isPrefixOf s.data

/-- The library function `strings.TrimPrefix`. -/
def TrimPrefix (s pre : String) : String :=
  if HasPrefix s pre then String.mk (s.data.drop pre.data.length) else s

/-- The error text of a too short number. -/
def errTooShort : String := "invalid phone number: too short"

/-- The source function `formatPhoneNumber`. -/
def formatPhoneNumber (phoneNumber : String) : Except String JID :=
  let cleanPhone := ReplaceAllString phoneNumber
  let cleanPhone := TrimPrefix cleanPhone "+"
  if cleanPhone.utf8ByteSize < 10 then
    .error errTooShort
  else
    .ok (NewJID cleanPhone DefaultUserServer)

/-- The ASCII decimal digits of a string, in their original order. -/
def digitsOf (s : String) : String := String.mk (s.data.filter Char.isDigit)


/-! ## Durable status record -/

/-- The errors of a durable lookup: `gorm.ErrRecordNotFound`, or any other error. -/
inductive DbError where
  | ErrRecordNotFound
  | other (msg : String)
deriving DecidableEq, Repr

/-- The query `db.Where("user_id = ?", userID).First(&session)` on the durable table.
The table is taken to be reachable: the lookup yields the row or `ErrRecordNotFound`. -/
def dbFirst {C : Type} (w : World C) (userID : Nat) : Except DbError WhatsAppSession :=
  match w.db userID with
  | some row => .ok row
  | none => .error .ErrRecordNotFound

/-- The statement `db.Create(&session)` for a new row with `UserID: userID`.  The insert is
refused by the foreign key when the `users` table has no row with that id; the caller
discards the error, so only the call is recorded then. -/
def dbCreate {C : Type} (w : World C) (userID : Nat) (row : WhatsAppSession) : World C :=
  if w.users userID then
    { w with db := Function.update w.db userID (some row),
             trace := w.trace ++ [.dbCreate userID row] }
  else
    { w with trace := w.trace ++ [.dbCreate userID row] }

/-- The statement `db.Save(&session)` for the row found under `userID` (the row exists, so
its foreign key is satisfied). -/
def dbSave {C : Type} (w : World C) (userID : Nat) (row : WhatsAppSession) : World C :=
  { w with db := Function.update w.db userID (some row),
           trace := w.trace ++ [.dbSave userID row] }

/-- The source function `updateSessionStatus`. -/
def updateSessionStatus {C : Type} (w : World C) (userID : Nat)
    (isConnected isLoggedIn : Bool) : World C :=
  match dbFirst w userID with
  | .error .ErrRecordNotFound =>
    dbCreate w userID
      { IsConnected := isConnected, IsLoggedIn := isLoggedIn, LastActiveAt := w.now }
  | .ok session =>
    dbSave w userID
      { session with IsConnected := isConnected, IsLoggedIn := isLoggedIn,
                     LastActiveAt := w.now }
  | .error (.other _) => w

/-! ## Session life cycle -/

section Service

variable {C : Type} (lib : Whatsmeow C)

/-- The source function `initializeUserClient`: the error (if any), the state afterwards,
and the session object afterwards. -/
def initializeUserClient (w : World C) (session : UserSession C) :
    Option String × World C × UserSession C :=
  let w := w.call (.sqlstoreNew session.UserID)
  match lib.New session.UserID with
  | .error err => (some ("failed to create in-memory database: " ++ err), w, session)
  | .ok db =>
    let session := { session with DB := some db }
    let w := w.call (.getFirstDevice session.UserID)
    match lib.GetFirstDevice db with
    | .error err => (some ("failed to get device: " ++ err), w, session)
    | .ok deviceStore =>
      let w := w.call (.newClient session.UserID)
      let client := lib.NewClient deviceStore
      let w := w.call (.addEventHandler session.UserID)
      let session := { session with Client := some (lib.AddEventHandler client) }
      let w := updateSessionStatus w session.UserID false false
      (none, w, session)

/-- The source function `getUserSession`. -/
def getUserSession (w : World C) (userID : Nat) :
    Except String (UserSession C) × World C :=
  match w.sessions userID with
  | some session => (.ok session, w)
  | none =>
    let session : UserSession C :=
      { UserID := userID, Client := none, DB := none, EventChan := some [],
        IsConnected := false, Cancel := some CancelFunc.mk }
    match initializeUserClient lib w session with
    | (some err, w, _) =>
      (.error ("failed to initialize client for user " ++ toString userID ++ ": " ++ err),
        w.call (.cancel userID))
    | (none, w, session) =>
      let w := w.call (.goEventProcessor userID)
      (.ok session, w.setSession userID session)

/-- The source function `removeUserSession`. -/
def removeUserSession (w : World C) (userID : Nat) : World C :=
  match w.sessions userID with
  | some session =>
    let w := if session.Cancel.isSome then w.call (.cancel userID) else w
    let w := if session.EventChan.isSome then w.call (.closeEventChan userID) else w
    let w := if session.Client.isSome then w.call (.clientDisconnect userID) else w
    let w := if session.DB.isSome then w.call (.dbClose userID) else w
    w.deleteSession userID
  | none => w

/-! ## Public operations -/

/-- The text of `constant.WHATSAPP_NOT_CONNECTED`. -/
def WHATSAPP_NOT_CONNECTED : String := "WhatsApp client not connected"

/-- The text of `constant.INVALID_PHONE_NUMBER`. -/
def INVALID_PHONE_NUMBER : String := "Invalid phone number format"

/-- The text of `constant.MEDIA_UPLOAD_FAILED`. -/
def MEDIA_UPLOAD_FAILED : String := "Failed to upload media"

/-- The error text for a caller context without a tenant id. -/
def errAuthRequired (err : String) : String := "authentication required: " ++ err

/-- The error text of `Connect` for a tenant without a session. -/
def errNoSession : String := "no active session found. Please scan QR code first"

/-- The error text for a client without an identity. -/
def errNotLoggedIn : String := "not logged in to WhatsApp. Please scan QR code first"

/-- The error text for a client whose transport is down. -/
def errTransportDown : String :=
  "WhatsApp websocket not connected. Please call /connect first"

/-- The error text for a session whose `IsConnected` flag is unset. -/
def errNotMarkedConnected : String :=
  "session not marked as connected. Please call /connect first"

/-- The source function `Connect`. -/
def Connect (w : World C) (ctx : Context) : Option String × World C :=
  match getUserIDFromContext ctx with
  | .error err => (some (errAuthRequired err), w)
  | .ok userID =>
    match w.sessions userID with
    | none => (some errNoSession, w)
    | some session =>
      if session.IsConnected &&
          (match session.Client with
           | some client => lib.IsConnected client && (lib.StoreID client).isSome
           | none => false) then
        (none, w)
      else
        match session.Client with
        | some client =>
          if (lib.StoreID client).isSome then
            if !lib.IsConnected client then
              let w := w.call (.clientConnect userID)
              match lib.Connect client with
              | (some err, client) =>
                (some ("failed to connect: " ++ err),
                  w.setSession userID { session with Client := some client })
              | (none, client) =>
                let w := w.setSession userID
                  { session with Client := some client, IsConnected := true }
                (none, updateSessionStatus w userID true true)
            else
              let w := w.setSession userID { session with IsConnected := true }
              (none, updateSessionStatus w userID true true)
          else
            (some errNotLoggedIn, w)
        | none => (some errNotLoggedIn, w)

/-- The source function `Disconnect`. -/
def Disconnect (w : World C) (ctx : Context) : Option String × World C :=
  match getUserIDFromContext ctx with
  | .error err => (some (errAuthRequired err), w)
  | .ok userID => (none, removeUserSession w userID)

/-- The source function `SendMessage`. -/
def SendMessage (w : World C) (ctx : Context) (req : SendMessageDTO) :
    Except String MessageResponseDTO × World C :=
  match getUserIDFromContext ctx with
  | .error err => (.error (errAuthRequired err), w)
  | .ok userID =>
    match w.sessions userID with
    | none => (.error WHATSAPP_NOT_CONNECTED, w)
    | some session =>
      match session.Client with
      | none => (.error WHATSAPP_NOT_CONNECTED, w)
      | some client =>
        if (lib.StoreID client).isNone then
          (.error errNotLoggedIn, w)
        else if !lib.IsConnected client then
          (.error errTransportDown, w)
        else if !session.IsConnected then
          (.error errNotMarkedConnected, w)
        else
          match formatPhoneNumber req.PhoneNumber with
          | .error err => (.error (INVALID_PHONE_NUMBER ++ ": " ++ err), w)
          | .ok recipient =>
            let msg : Message := { Conversation := some req.Message }
            let w := w.call (.sendMessage userID recipient msg)
            match lib.SendMessage client recipient msg with
            | (.error err, client) =>
              (.error ("failed to send message: " ++ err),
                w.setSession userID { session with Client := some client })
            | (.ok resp, client) =>
              (.ok { MessageID := resp.ID, Timestamp := lib.FormatRFC3339 resp.Timestamp,
                     Status := "sent", To := req.PhoneNumber },
                w.setSession userID { session with Client := some client })

/-- The MIME classification `switch` of `SendMediaMessage`. -/
def mediaTypeOf (mimeType : String) : MediaType :=
  if HasPrefix mimeType "image/" then .MediaImage
  else if HasPrefix mimeType "video/" then .MediaVideo
  else if HasPrefix mimeType "audio/" then .MediaAudio
  else .MediaDocument

/-- The payload `switch` of `SendMediaMessage`. -/
def mediaMessage (mediaType : MediaType) (req : SendMediaMessageDTO)
    (uploaded : UploadResponse) : Message :=
  match mediaType with
  | .MediaImage =>
    { ImageMessage := some
        { URL := some uploaded.URL, Mimetype := some req.MimeType,
          Caption := some req.Caption, FileSHA256 := uploaded.FileSHA256,
          FileLength := some uploaded.FileLength, Height := some req.Height,
          Width := some req.Width, DirectPath := some uploaded.DirectPath,
          MediaKey := uploaded.MediaKey, FileEncSHA256 := uploaded.FileEncSHA256 } }
  | .MediaVideo =>
    { VideoMessage := some
        { URL := some uploaded.URL, Mimetype := some req.MimeType,
          Caption := some req.Caption, FileSHA256 := uploaded.FileSHA256,
          FileLength := some uploaded.FileLength, Height := none, Width := none,
          DirectPath := some uploaded.DirectPath, MediaKey := uploaded.MediaKey,
          FileEncSHA256 := uploaded.FileEncSHA256 } }
  | .MediaAudio =>
    { AudioMessage := some
        { URL := some uploaded.URL, Mimetype := some req.MimeType,
          FileSHA256 := uploaded.FileSHA256, FileLength := some uploaded.FileLength,
          DirectPath := some uploaded.DirectPath, MediaKey := uploaded.MediaKey,
          FileEncSHA256 := uploaded.FileEncSHA256 } }
  | .MediaDocument =>
    { DocumentMessage := some
        { URL := some uploaded.URL, Mimetype := some req.MimeType,
          Title := some req.Caption, FileSHA256 := uploaded.FileSHA256,
          FileLength := some uploaded.FileLength,
          DirectPath := some uploaded.DirectPath, MediaKey := uploaded.MediaKey,
          FileEncSHA256 := uploaded.FileEncSHA256 } }

/-- The source function `SendMediaMessage`. -/
def SendMediaMessage (w : World C) (ctx : Context) (req : SendMediaMessageDTO) :
    Except String MessageResponseDTO × World C :=
  match getUserIDFromContext ctx with
  | .error err => (.error (errAuthRequired err), w)
  | .ok userID =>
    match w.sessions userID with
    | none => (.error WHATSAPP_NOT_CONNECTED, w)
    | some session =>
      match session.Client with
      | none => (.error WHATSAPP_NOT_CONNECTED, w)
      | some client =>
        if (lib.StoreID client).isNone then
          (.error errNotLoggedIn, w)
        else if !lib.IsConnected client then
          (.error errTransportDown, w)
        else if !session.IsConnected then
          (.error errNotMarkedConnected, w)
        else
          match formatPhoneNumber req.PhoneNumber with
          | .error err => (.error (INVALID_PHONE_NUMBER ++ ": " ++ err), w)
          | .ok recipient =>
            let mediaType := mediaTypeOf req.MimeType
            let w := w.call (.upload userID req.MediaData mediaType)
            match lib.Upload client req.MediaData mediaType with
            | (.error err, client) =>
              (.error (MEDIA_UPLOAD_FAILED ++ ": " ++ err),
                w.setSession userID { session with Client := some client })
            | (.ok uploaded, client) =>
              let msg := mediaMessage mediaType req uploaded
              let w := w.call (.sendMessage userID recipient msg)
              match lib.SendMessage client recipient msg with
              | (.error err, client) =>
                (.error ("failed to send media message: " ++ err),
                  w.setSession userID { session with Client := some client })
              | (.ok resp, client) =>
                (.ok { MessageID := resp.ID, Timestamp := lib.FormatRFC3339 resp.Timestamp,
                       Status := "sent", To := req.PhoneNumber },
                  w.setSession userID { session with Client := some client })

/-- The ways a call can end: a normal return, or a run-time panic (nil dereference). -/
inductive Outcome (α : Type) where
  | returned (r : Except String α)
  | panicked
deriving DecidableEq, Repr

/-- The rendering of an `error` value by the verb `%v`. -/
def fmtError (err : Option String) : String :=
  match err with
  | some msg => msg
  | none => "<nil>"

/-- The `for evt := range qrChan` loop of `GetQRCode`, over the items the channel delivers
before it closes.  `session` is the session object the caller holds. -/
def qrLoop (userID : Nat) (w : World C) (session : UserSession C) :
    List QRChannelItem → Except String String × World C
  | [] => (.error "QR channel closed unexpectedly", w)
  | evt :: rest =>
    if evt.Event = "code" then
      (.ok evt.Code, updateSessionStatus w userID true false)
    else if evt.Event = "success" then
      let session := { session with IsConnected := true }
      let w := w.setSession userID session
      let w := updateSessionStatus w userID true true
      let w := w.setSession userID session
      (.ok ("User " ++ toString userID ++ " successfully connected"), w)
    else if evt.Event = "timeout" then
      (.error "QR code expired", w)
    else if evt.Event = "error" then
      (.error ("QR code error: " ++ fmtError evt.Error), w)
    else
      qrLoop userID w session rest

/-- The source function `GetQRCode`. -/
def GetQRCode (w : World C) (ctx : Context) : Outcome String × World C :=
  match getUserIDFromContext ctx with
  | .error err => (.returned (.error (errAuthRequired err)), w)
  | .ok userID =>
    let hasClient : Bool :=
      match w.sessions userID with
      | some existingSession => existingSession.Client.isSome
      | none => false
    let hasIdentity : Bool :=
      match w.sessions userID with
      | some existingSession =>
        (match existingSession.Client with
         | some client => (lib.StoreID client).isSome
         | none => false)
      | none => false
    if hasClient && hasIdentity then
      (.returned (.ok ("User " ++ toString userID ++ " already logged in to WhatsApp")), w)
    else if hasClient then
      if hasIdentity then
        (.returned (.ok ("User " ++ toString userID ++ " already logged in to WhatsApp")), w)
      else
        (.returned (.ok ("User " ++ toString userID ++
          " already has a QR code session. Please wait for the current QR code to be scanned or expired.")),
          w)
    else
      match getUserSession lib w userID with
      | (.error err, w) => (.returned (.error ("failed to get user session: " ++ err)), w)
      | (.ok session, w) =>
        match session.Client with
        | none => (.panicked, w)
        | some client =>
          if (lib.StoreID client).isSome then
            (.returned (.ok ("User " ++ toString userID ++ " already logged in")), w)
          else
            let w := w.call (.getQRChannel userID)
            match lib.GetQRChannel client with
            | (.error err, client) =>
              (.returned (.error ("failed to get QR channel: " ++ err)),
                w.setSession userID { session with Client := some client })
            | (.ok qrChan, client) =>
              let w := w.call (.clientConnect userID)
              match lib.Connect client with
              | (some err, client) =>
                (.returned (.error ("failed to connect: " ++ err)),
                  w.setSession userID { session with Client := some client })
              | (none, client) =>
                let session := { session with Client := some client }
                let w := w.setSession userID session
                match qrLoop userID w session qrChan with
                | (r, w) => (.returned r, w)

/-- The source function `CheckConnection`. -/
def CheckConnection (w : World C) (ctx : Context) (_phoneNumber : String) :
    Except String Bool × World C :=
  match getUserIDFromContext ctx with
  | .error err => (.error (errAuthRequired err), w)
  | .ok userID =>
    match w.sessions userID with
    | none => (.ok false, w)
    | some session =>
      match session.Client with
      | none => (.ok false, w)
      | some client =>
        if !lib.IsConnected client then (.ok false, w)
        else if (lib.StoreID client).isNone then (.ok false, w)
        else (.ok true, w)

/-- The durable fallback of `GetStatus` (the part after the in-memory branch). -/
def statusFromRecord (w : World C) (userID : Nat) : Except String String × World C :=
  match dbFirst w userID with
  | .error .ErrRecordNotFound => (.ok "Not initialized", w)
  | .error (.other err) => (.error ("failed to get session status: " ++ err), w)
  | .ok dbSession =>
    if dbSession.IsLoggedIn then
      (.ok "Logged in but session expired (restart needed)", w)
    else if dbSession.IsConnected then
      (.ok "Previous session existed but expired", w)
    else
      (.ok "Not initialized", w)

/-- The source function `GetStatus`. -/
def GetStatus (w : World C) (ctx : Context) : Except String String × World C :=
  match getUserIDFromContext ctx with
  | .error err => (.error (errAuthRequired err), w)
  | .ok userID =>
    match w.sessions userID with
    | none => statusFromRecord w userID
    | some session =>
      match session.Client with
      | none => statusFromRecord w userID
      | some client =>
        if (lib.StoreID client).isSome then
          if session.IsConnected && lib.IsConnected client then
            (.ok "Connected and logged in", updateSessionStatus w userID true true)
          else if lib.IsConnected client then
            (.ok "Logged in but session not marked as connected",
              updateSessionStatus w userID true true)
          else
            (.ok "Logged in but websocket disconnected",
              updateSessionStatus w userID false true)
        else if lib.IsConnected client then
          (.ok "Connected but not logged in", updateSessionStatus w userID true false)
        else
          (.ok "Session exists but disconnected", updateSessionStatus w userID false false)

/-- The source function `GetContacts`. -/
def GetContacts (w : World C) (ctx : Context) : Except String Contacts × World C :=
  match getUserIDFromContext ctx with
  | .error err => (.error (errAuthRequired err), w)
  | .ok userID =>
    match w.sessions userID with
    | none => (.error WHATSAPP_NOT_CONNECTED, w)
    | some session =>
      match session.Client with
      | none => (.error WHATSAPP_NOT_CONNECTED, w)
      | some client =>
        if !session.IsConnected || !lib.IsConnected client || (lib.StoreID client).isNone then
          (.error "WhatsApp not connected or not logged in. Please connect first", w)
        else
          let w := w.call (.getAllContacts userID)
          match lib.GetAllContacts client with
          | .error err => (.error ("failed to get contacts: " ++ err), w)
          | .ok contacts => (.ok contacts, w)

/-! ## The service boundary -/

/-- A call of one of the eight public operations, with its arguments. -/
inductive Op where
  | Connect
  | Disconnect
  | SendMessage (req : SendMessageDTO)
  | SendMediaMessage (req : SendMediaMessageDTO)
  | GetQRCode
  | CheckConnection (phoneNumber : String)
  | GetStatus
  | GetContacts
deriving DecidableEq, Repr

/-- The value a public operation returns to its caller. -/
inductive OpResult where
  | Connect (err : Option String)
  | Disconnect (err : Option String)
  | SendMessage (r : Except String MessageResponseDTO)
  | SendMediaMessage (r : Except String MessageResponseDTO)
  | GetQRCode (r : Outcome String)
  | CheckConnection (r : Except String Bool)
  | GetStatus (r : Except String String)
  | GetContacts (r : Except String Contacts)
deriving DecidableEq, Repr

/-- Run a public operation: its result and the state afterwards. -/
def runOp (w : World C) (ctx : Context) (op : Op) : OpResult × World C :=
  match op with
  | .Connect => ((Connect lib w ctx).map .Connect id)
  | .Disconnect => ((Disconnect w ctx).map .Disconnect id)
  | .SendMessage req => ((SendMessage lib w ctx req).map .SendMessage id)
  | .SendMediaMessage req => ((SendMediaMessage lib w ctx req).map .SendMediaMessage id)
  | .GetQRCode => ((GetQRCode lib w ctx).map .GetQRCode id)
  | .CheckConnection phoneNumber =>
    ((CheckConnection lib w ctx phoneNumber).map .CheckConnection id)
  | .GetStatus => ((GetStatus lib w ctx).map .GetStatus id)
  | .GetContacts => ((GetContacts lib w ctx).map .GetContacts id)

end Service

/-! ## A concrete client library

A small deterministic library on which the service can be run. -/

/-- The state of a simulated client: its identity, its transport flag, and the items its
pairing channel delivers. -/
structure SimClient where
  identity : Option JID
  connected : Bool
  pairing : List QRChannelItem
deriving DecidableEq, Repr

/-- A simulated library: stores always open, a new client has no identity and is
disconnected, `Connect` fails with `connectError` when one is given, sends and uploads
succeed. -/
def simLib (pairing : List QRChannelItem) (connectError : Option String) :
    Whatsmeow SimClient where
  New := fun userID => .ok { handle := userID }
  GetFirstDevice := fun db => .ok { handle := db.handle }
  NewClient := fun _ => { identity := none, connected := false, pairing := pairing }
  AddEventHandler := fun c => c
  StoreID := fun c => c.identity
  IsConnected := fun c => c.connected
  Connect := fun c =>
    match connectError with
    | some err => (some err, c)
    | none => (none, { c with connected := true })
  Disconnect := fun c => { c with connected := false }
  SendMessage := fun c _ _ => (.ok { ID := "3EB0A1", Timestamp := 0 }, c)
  Upload := fun c data _ =>
    (.ok { URL := "https://mmg.whatsapp.net/m1", DirectPath := "/m1", MediaKey := [1],
           FileEncSHA256 := [2], FileSHA256 := [3], FileLength := data.length }, c)
  GetQRChannel := fun c => (.ok c.pairing, c)
  GetAllContacts := fun _ => .ok []
  FormatRFC3339 := fun _ => "1970-01-01T00:00:00Z"

/-- A session of tenant `userID` around a simulated client. -/
def simSession (userID : Nat) (identity : Option JID) (transport flag : Bool) :
    UserSession SimClient :=
  { UserID := userID,
    Client := some { identity := identity, connected := transport, pairing := [] },
    DB := some { handle := userID }, EventChan := some [], IsConnected := flag,
    Cancel := some CancelFunc.mk }

/-- A state holding exactly one session, for tenant `userID`, and no durable row. -/
def simWorld (userID : Nat) (identity : Option JID) (transport flag : Bool) :
    World SimClient :=
  (NewService SimClient 0).setSession userID (simSession userID identity transport flag)

/-! ## Observations on results, traces and pairing items -/

/-- The error a public operation returned to its caller, if it returned one. -/
def OpResult.err : OpResult → Option String
  | .Connect err => err
  | .Disconnect err => err
  | .SendMessage (.error err) => some err
  | .SendMessage (.ok _) => none
  | .SendMediaMessage (.error err) => some err
  | .SendMediaMessage (.ok _) => none
  | .GetQRCode (.returned (.error err)) => some err
  | .GetQRCode (.returned (.ok _)) => none
  | .GetQRCode .panicked => none
  | .CheckConnection (.error err) => some err
  | .CheckConnection (.ok _) => none
  | .GetStatus (.error err) => some err
  | .GetStatus (.ok _) => none
  | .GetContacts (.error err) => some err
  | .GetContacts (.ok _) => none

/-- The pairing-related calls of a trace for one tenant, in order: obtaining the pairing
channel and invoking the connect primitive. -/
def pairingCalls (userID : Nat) (trace : List Call) : List Call :=
  trace.filter (fun c => decide (c = .getQRChannel userID ∨ c = .clientConnect userID))

/-- Whether a pairing item is of one of the four kinds on which the loop of `GetQRCode`
returns. -/
def isTerminalEvent (evt : QRChannelItem) : Bool :=
  evt.Event = "code" || evt.Event = "success" || evt.Event = "timeout" || evt.Event = "error"

/-- The session `getUserSession` builds for a new tenant once initialisation succeeded
with credential store `db` and client `client`. -/
def initializedSession {C : Type} (userID : Nat) (db : Container) (client : C) :
    UserSession C :=
  { UserID := userID, Client := some client, DB := some db, EventChan := some [],
    IsConnected := false, Cancel := some CancelFunc.mk }

/-- The text `GetQRCode` returns for a session that already has an identity. -/
def msgAlreadyLoggedIn (userID : Nat) : String :=
  "User " ++ toString userID ++ " already logged in to WhatsApp"

/-- The text `GetQRCode` returns for a session that exists and has no identity. -/
def msgPairingInProgress (userID : Nat) : String :=
  "User " ++ toString userID ++
    " already has a QR code session. Please wait for the current QR code to be scanned or expired."

/-- A simulated library whose credential store cannot be created. -/
def simLibNoStore : Whatsmeow SimClient :=
  { simLib [] none with New := fun _ => .error "unable to open database file" }

/-- A simulated library whose credential store opens and whose device retrieval fails. -/
def simLibNoDevice : Whatsmeow SimClient :=
  { simLib [] none with GetFirstDevice := fun _ => .error "no such table: whatsmeow_device" }

/-! ## Inbound events

The event-processing goroutine and the client's event handler hold the `*UserSession`
itself, also after `removeUserSession` dropped it from the map.  `SessionRef` is the part
of that object they use: the channel with its open/closed state, and whether the
session's context has been cancelled. -/

/-- A Go channel of `*events.Message`: its buffered elements and whether it is closed. -/
structure Chan where
  buf : List MessageEvent
  closed : Bool
deriving DecidableEq, Repr

/-- The capacity of `EventChan`, as given to `make` in `getUserSession`. -/
def eventChanCapacity : Nat := 100

/-- The session object as the goroutine and the event handler see it. -/
structure SessionRef where
  UserID : Nat
  EventChan : Option Chan
  Done : Bool
deriving DecidableEq, Repr

/-- The object of a session that is held by the map: channel open, context live. -/
def liveRef {C : Type} (session : UserSession C) : SessionRef :=
  { UserID := session.UserID,
    EventChan := session.EventChan.map (fun buf => { buf := buf, closed := false }),
    Done := false }

/-- The same object after the steps of `removeUserSession`: the context is cancelled (when
`Cancel` is not nil) and the channel is closed (when it is not nil). -/
def tornDownRef {C : Type} (session : UserSession C) : SessionRef :=
  { UserID := session.UserID,
    EventChan := session.EventChan.map (fun buf => { buf := buf, closed := true }),
    Done := session.Cancel.isSome }

/-- A line written by `log.Printf` in the event-processing goroutine or the handler. -/
inductive LogLine where
  | message (userID : Nat) (sender : String) (content : String) (timestamp : Nat)
  | stopped (userID : Nat)
  | receipt (userID : Nat) (detail : String)
deriving DecidableEq, Repr

/-- The nil-safe getter `(*Message).GetConversation`. -/
def GetConversation (m : Option Message) : String :=
  match m with
  | some m => m.Conversation.getD ""
  | none => ""

/-- The nil-safe getter `(*Message).GetExtendedTextMessage`. -/
def GetExtendedTextMessage (m : Option Message) : Option ExtendedTextMessage :=
  match m with
  | some m => m.ExtendedTextMessage
  | none => none

/-- The nil-safe getter `(*ExtendedTextMessage).GetText`. -/
def GetText (e : Option ExtendedTextMessage) : String :=
  match e with
  | some e => e.Text
  | none => ""

/-- The marker logged for an event without text. -/
def unsupportedMarker : String := "[Media or unsupported message type]"

/-- The text extraction of `eventProcessor` (the `messageText` variable). -/
def messageText (event : MessageEvent) : String :=
  if event.Message.isSome && GetConversation event.Message != "" then
    GetConversation event.Message
  else if event.Message.isSome && (GetExtendedTextMessage event.Message).isSome then
    GetText (GetExtendedTextMessage event.Message)
  else
    unsupportedMarker

/-- How a run of the event-processing loop stands after the iterations considered. -/
inductive LoopState where
  | returned
  | panicked
  | blocked
  | running
deriving DecidableEq, Repr

/-- Whether the receive `<-session.EventChan` can proceed: an element is buffered or the
channel is closed (a nil channel never can). -/
def recvReady (session : SessionRef) : Bool :=
  match session.EventChan with
  | some ch => !ch.buf.isEmpty || ch.closed
  | none => false

/-- The source function `eventProcessor`.  Each element of `picks` drives one iteration of
the `for` loop: when both cases of the `select` can proceed, Go chooses one of them at
random, and the element says whether the receive case is the one chosen (`true`) or the
`Done` case (`false`).  When only one case can proceed it is taken, when none can the
goroutine blocks.  A receive on a closed, drained channel yields a nil event, whose
`Info` is then dereferenced. -/
def eventProcessor (session : SessionRef) (logs : List LogLine) :
    List Bool → LoopState × SessionRef × List LogLine
  | [] => (.running, session, logs)
  | pick :: picks =>
    let takeRecv : Bool := recvReady session && (pick || !session.Done)
    if takeRecv then
      match session.EventChan with
      | some ch =>
        match ch.buf with
        | event :: rest =>
          eventProcessor { session with EventChan := some { ch with buf := rest } }
            (logs ++ [.message session.UserID event.Info.Source (messageText event)
              event.Info.Timestamp]) picks
        | [] => (.panicked, session, logs)
      | none => (.blocked, session, logs)
    else if session.Done then
      (.returned, session, logs ++ [.stopped session.UserID])
    else
      (.blocked, session, logs)

/-- An event handed to the handler registered with `AddEventHandler`. -/
inductive Event where
  | Message (v : MessageEvent)
  | Receipt (detail : String)
  | other
deriving DecidableEq, Repr

/-- How a call of `handleEvents` ends. -/
inductive HandlerEnd where
  | returned
  | blocked
  | panicked
deriving DecidableEq, Repr

/-- The source function `handleEvents`.  The send `session.EventChan <- v` panics on a
closed channel, blocks on a nil channel and on a full buffer, and otherwise appends. -/
def handleEvents (session : SessionRef) (evt : Event) :
    HandlerEnd × SessionRef × List LogLine :=
  match evt with
  | .Message v =>
    match session.EventChan with
    | none => (.blocked, session, [])
    | some ch =>
      if ch.closed then (.panicked, session, [])
      else if ch.buf.length < eventChanCapacity then
        (.returned, { session with EventChan := some { ch with buf := ch.buf ++ [v] } }, [])
      else (.blocked, session, [])
  | .Receipt detail => (.returned, session, [.receipt session.UserID detail])
  | .other => (.returned, session, [])

/-! ## Reachable states -/

/-- The states the service can be in: it starts with an empty registry, and every later
state results from a public operation called with some context, from the clock advancing,
from a user being registered, or from the client library changing the state of a session's client on its own (for
instance when the transport drops or a pairing completes). -/
inductive Reachable {C : Type} (lib : Whatsmeow C) : World C → Prop where
  | init (db : Nat → Option WhatsAppSession) (users : Nat → Bool) (now : Nat) :
    Reachable lib
      { sessions := fun _ => none, db := db, users := users, now := now, trace := [] }
  | op (w : World C) (ctx : Context) (op : Op) :
    Reachable lib w → Reachable lib (runOp lib w ctx op).2
  | tick (w : World C) (now : Nat) :
    Reachable lib w → Reachable lib { w with now := now }
  | register (w : World C) (id : Nat) :
    Reachable lib w → Reachable lib { w with users := Function.update w.users id true }
  | client (w : World C) (userID : Nat) (session : UserSession C) (c c1 : C) :
    Reachable lib w → w.sessions userID = some session → session.Client = some c →
    Reachable lib (w.setSession userID { session with Client := some c1 })

/-! ## Registration and login (`pkg/domains/auth`)

The password hashing and token signing libraries are parameters; the `users` table is
taken to be reachable, as the durable status table is. -/

namespace Auth

/-- The `entities.User` row; `ID` is the primary key of `gorm.Model` (zero until the row
is inserted). -/
structure User where
  ID : Nat
  Email : String
  Password : String
  Name : String
  Surname : String
  Phone : String
  ResetToken : String
  ResetExpiresAt : Nat
deriving DecidableEq, Repr

/-- The zero value of `entities.User`. -/
def User.zero : User :=
  { ID := 0, Email := "", Password := "", Name := "", Surname := "", Phone := "",
    ResetToken := "", ResetExpiresAt := 0 }

/-- The `dtos.DTOForUserCreate` request. -/
structure DTOForUserCreate where
  Email : String
  Password : String
  Name : String
  Surname : String
  Phone : String
deriving DecidableEq, Repr

/-- The `dtos.DTOForUserLogin` request. -/
structure DTOForUserLogin where
  Email : String
  Password : String
deriving DecidableEq, Repr

/-- The `jwt.MapClaims` the service signs: the `id` and `exp` claims. -/
structure MapClaims where
  id : Nat
  exp : Nat
deriving DecidableEq, Repr

/-- The `users` table: its rows in primary-key order and the last value of the key
sequence. -/
structure UserTable where
  rows : List User
  lastID : Nat
deriving DecidableEq, Repr

/-- The libraries and the clock the auth service uses. -/
structure AuthLib where
  /-- The function `bcrypt.GenerateFromPassword`. -/
  GenerateFromPassword : String → Except String String
  /-- The function `bcrypt.CompareHashAndPassword` (`true` is a nil error). -/
  CompareHashAndPassword : String → String → Bool
  /-- The method `Token.SignedString` with the configured secret. -/
  SignedString : MapClaims → Except String String
  /-- The reading `time.Now().Unix()`. -/
  now : Nat

/-- The source function `FindUserByEmailOrPhone`: the row read and the error. -/
def FindUserByEmailOrPhone (t : UserTable) (email phone : String) :
    User × Option DbError :=
  match t.rows.find? (fun u => u.Email = email || u.Phone = phone) with
  | some user => (user, none)
  | none => (User.zero, some .ErrRecordNotFound)

/-- The source function `FindUserByEmail`: the row read and the error. -/
def FindUserByEmail (t : UserTable) (email : String) : User × Option DbError :=
  match t.rows.find? (fun u => u.Email = email) with
  | some user => (user, none)
  | none => (User.zero, some .ErrRecordNotFound)

/-- The source function `CreateUser`.  It receives the user by value: the key that the
insert assigns is written to the callee's copy, and only the error is returned.  The
insert fails on a duplicate email (unique index). -/
def CreateUser (t : UserTable) (user : User) : Option String × UserTable :=
  if t.rows.any (fun u => u.Email = user.Email) then
    (some "duplicate key value violates unique constraint", t)
  else
    (none, { rows := t.rows ++ [{ user with ID := t.lastID + 1 }], lastID := t.lastID + 1 })

/-- The text of `constant.SOMETHING_WENT_WRONG`. -/
def SOMETHING_WENT_WRONG : String := "something went wrong"

/-- The text of `constant.ALREADY_EXISTS` formatted for a user. -/
def ALREADY_EXISTS_User : String := "User already exists"

/-- The text of `constant.EMAIL_OR_PHONE`. -/
def EMAIL_OR_PHONE : String := "invalid email address or phone number"

/-- The text of `constant.UNAUTHORIZED_ACCESS`. -/
def UNAUTHORIZED_ACCESS : String := "unauthorized access"

/-- The source function `Register`: the signed token or the error, and the table
afterwards. -/
def Register (lib : AuthLib) (t : UserTable) (req : DTOForUserCreate) :
    Except String String × UserTable :=
  match FindUserByEmailOrPhone t req.Email req.Phone with
  | (existingUser, err) =>
    if err.isSome && err != some .ErrRecordNotFound then
      (.error SOMETHING_WENT_WRONG, t)
    else if existingUser.ID != 0 then
      (.error ALREADY_EXISTS_User, t)
    else
      match lib.GenerateFromPassword req.Password with
      | .error e => (.error e, t)
      | .ok passwordHash =>
        let user : User :=
          { User.zero with Email := req.Email, Password := passwordHash, Name := req.Name,
                           Surname := req.Surname, Phone := req.Phone }
        match CreateUser t user with
        | (some e, t) => (.error e, t)
        | (none, t) =>
          match lib.SignedString { id := user.ID, exp := lib.now + 24 * 3600 } with
          | .error e => (.error e, t)
          | .ok tokenString => (.ok tokenString, t)

/-- The source function `Login`. -/
def Login (lib : AuthLib) (t : UserTable) (req : DTOForUserLogin) : Except String String :=
  match FindUserByEmail t req.Email with
  | (_, some .ErrRecordNotFound) => .error EMAIL_OR_PHONE
  | (_, some _) => .error SOMETHING_WENT_WRONG
  | (user, none) =>
    if !lib.CompareHashAndPassword user.Password req.Password then
      .error UNAUTHORIZED_ACCESS
    else
      match lib.SignedString { id := user.ID, exp := lib.now + 24 * 3600 } with
      | .error e => .error e
      | .ok tokenString => .ok tokenString

/-- A simulated library: hashing tags the password, a token spells out its claims. -/
def simAuthLib : AuthLib where
  GenerateFromPassword := fun p => .ok ("bcrypt:" ++ p)
  CompareHashAndPassword := fun h p => h == "bcrypt:" ++ p
  SignedString := fun c => .ok ("id=" ++ toString c.id ++ ";exp=" ++ toString c.exp)
  now := 0

end Auth

/-- Every session in the registry is stored under its own tenant id and has a client. -/
def registryWellFormed {C : Type} (w : World C) : Prop :=
  ∀ u s, w.sessions u = some s → s.UserID = u ∧ s.Client.isSome = true

/-! ## Recipient normalisation: lemmas -/

theorem utf8Size_of_isDigit (c : Char) (h : c.isDigit = true) : c.utf8Size = 1 := by
  have h1 : c.val ≤ 57 := by
    simp only [Char.isDigit, Bool.and_eq_true, decide_eq_true_eq] at h
    exact h.2
  have h2 : c.val ≤ 127 := by
    have a : c.val.toNat ≤ 57 := h1
    show c.val.toNat ≤ 127
    omega
  simp only [Char.utf8Size]
  exact if_pos h2

theorem utf8Len_digits (l : List Char) (h : ∀ c ∈ l, c.isDigit = true) :
    String.utf8Len l = l.length := by
  induction l with
  | nil => rfl
  | cons c cs ih =>
    have hc := utf8Size_of_isDigit c (h c (List.mem_cons_self c cs))
    have hcs := ih (fun d hd => h d (List.mem_cons_of_mem c hd))
    rw [String.utf8Len_cons, hc, hcs, List.length_cons]

theorem utf8ByteSize_digits (l : List Char) (h : ∀ c ∈ l, c.isDigit = true) :
    (String.mk l).utf8ByteSize = l.length := by
  rw [String.utf8ByteSize_mk, utf8Len_digits l h]

theorem plus_not_digit : Char.isDigit '+' = false := by decide

theorem filter_kept_of_no_plus (l : List Char) (h : '+' ∉ l) :
    l.filter keptByRegexp = l.filter Char.isDigit := by
  apply List.filter_congr
  intro c hc
  have hne : c ≠ '+' := fun e => h (e ▸ hc)
  simp [keptByRegexp, hne]

/-- The cleaned string of a number with at most one `+`, placed before every digit, is its
digits, optionally preceded by that `+`. -/
theorem filter_kept_cases (l : List Char) (hcount : l.count '+' ≤ 1)
    (hlead : ∀ pre post, l = pre ++ '+' :: post → ∀ c ∈ pre, c.isDigit = false) :
    l.filter keptByRegexp = l.filter Char.isDigit ∨
      l.filter keptByRegexp = '+' :: l.filter Char.isDigit := by
  induction l with
  | nil => left; rfl
  | cons c cs ih =>
    by_cases hplus : c = '+'
    · subst hplus
      right
      have hno : '+' ∉ cs := by
        intro hmem
        have := List.count_pos_iff.mpr hmem
        simp [List.count_cons_self] at hcount
        omega
      simp [List.filter_cons, keptByRegexp, plus_not_digit, filter_kept_of_no_plus cs hno]
    · by_cases hd : c.isDigit = true
      · left
        have hno : '+' ∉ cs := by
          intro hmem
          obtain ⟨pre, post, hsplit⟩ := List.append_of_mem hmem
          have := hlead (c :: pre) post (by simp [hsplit]) c (List.mem_cons_self c pre)
          simp [hd] at this
        simp [List.filter_cons, keptByRegexp, hd, filter_kept_of_no_plus cs hno]
      · have hd' : c.isDigit = false := by simpa using hd
        have hcount' : cs.count '+' ≤ 1 := by
          rw [List.count_cons_of_ne (Ne.symm hplus)] at hcount
          exact hcount
        have hlead' : ∀ pre post, cs = pre ++ '+' :: post → ∀ d ∈ pre, d.isDigit = false := by
          intro pre post hsplit d hmem
          exact hlead (c :: pre) post (by simp [hsplit]) d (List.mem_cons_of_mem c hmem)
        have hk : keptByRegexp c = false := by simp [keptByRegexp, hd', hplus]
        rcases ih hcount' hlead' with h | h
        · left; simp [List.filter_cons, hk, hd', h]
        · right; simp [List.filter_cons, hk, hd', h]

theorem trimPrefix_plus_digits (l : List Char) (h : ∀ c ∈ l, c.isDigit = true) :
    TrimPrefix (String.mk l) "+" = String.mk l := by
  cases l with
  | nil => rfl
  | cons c cs =>
    have hc : c ≠ '+' := by
      intro e
      have := h c (List.mem_cons_self c cs)
      rw [e, plus_not_digit] at this
      exact Bool.noConfusion this
    simp [TrimPrefix, HasPrefix, List.isPrefixOf, Ne.symm hc]

theorem trimPrefix_plus_cons (l : List Char) :
    TrimPrefix (String.mk ('+' :: l)) "+" = String.mk l := by
  simp [TrimPrefix, HasPrefix, List.isPrefixOf]

/-- With at most one `+`, placed before every digit, the cleaned and trimmed string is the
digit string of the input. -/
theorem cleanPhone_eq_digits (phone : String) (hcount : phone.data.count '+' ≤ 1)
    (hlead : ∀ pre post, phone.data = pre ++ '+' :: post → ∀ c ∈ pre, c.isDigit = false) :
    TrimPrefix (ReplaceAllString phone) "+" = digitsOf phone := by
  have hdig : ∀ c ∈ phone.data.filter Char.isDigit, c.isDigit = true :=
    fun c hc => (List.mem_filter.mp hc).2
  unfold ReplaceAllString digitsOf
  rcases filter_kept_cases phone.data hcount hlead with h | h
  · rw [h]; exact trimPrefix_plus_digits _ hdig
  · rw [h]; exact trimPrefix_plus_cons _

/-! ## Recipient normalisation: claims -/

/-- C1 (the code departs from the claim): on the input `555+1234567` the function
`formatPhoneNumber` succeeds and the user part of the address it returns keeps the
interior `+`; it is neither made of decimal digits only nor equal to the digits of the
input, which are `5551234567`. -/
theorem formatPhoneNumber_keeps_interior_plus :
    formatPhoneNumber "555+1234567" = .ok (NewJID "555+1234567" DefaultUserServer) ∧
      digitsOf "555+1234567" = "5551234567" ∧
      '+' ∈ "555+1234567".data ∧ Char.isDigit '+' = false := by
  decide

/-- C2 (the code departs from the claim): the input `12345+6789` contains nine decimal
digits, fewer than ten, and `formatPhoneNumber` accepts it: the length test counts the
interior `+` as well. -/
theorem formatPhoneNumber_accepts_nine_digits :
    (digitsOf "12345+6789").length = 9 ∧
      formatPhoneNumber "12345+6789" = .ok (NewJID "12345+6789" DefaultUserServer) := by
  decide

/-- C3: for every phone string in which `+` occurs at most once and only before the first
digit, `formatPhoneNumber` succeeds exactly when the string has at least ten ASCII digits,
and then returns those digits, in order, as the user part (on the default user server);
with fewer than ten digits it fails as too short.  In particular `+1 (555) 123-4567` gives
the user part `15551234567` and `123` is rejected. -/
theorem formatPhoneNumber_leading_plus (phone : String)
    (hcount : phone.data.count '+' ≤ 1)
    (hlead : ∀ pre post, phone.data = pre ++ '+' :: post → ∀ c ∈ pre, c.isDigit = false) :
    (10 ≤ (digitsOf phone).length →
        formatPhoneNumber phone = .ok (NewJID (digitsOf phone) DefaultUserServer)) ∧
      ((digitsOf phone).length < 10 → formatPhoneNumber phone = .error errTooShort) ∧
      formatPhoneNumber "+1 (555) 123-4567" = .ok (NewJID "15551234567" DefaultUserServer) ∧
      formatPhoneNumber "123" = .error errTooShort := by
  have hclean := cleanPhone_eq_digits phone hcount hlead
  have hsize : (digitsOf phone).utf8ByteSize = (digitsOf phone).length := by
    have := utf8ByteSize_digits (phone.data.filter Char.isDigit)
      (fun c hc => (List.mem_filter.mp hc).2)
    simpa [digitsOf, String.length] using this
  refine ⟨?_, ?_, by decide, by decide⟩
  · intro h
    simp only [formatPhoneNumber, hclean, hsize]
    rw [if_neg (by omega)]
  · intro h
    simp only [formatPhoneNumber, hclean, hsize]
    rw [if_pos h]

/-- C3, witness: the theorem applied to `+1 (555) 123-4567`. -/
theorem formatPhoneNumber_leading_plus_witness :
    formatPhoneNumber "+1 (555) 123-4567" = .ok (NewJID "15551234567" DefaultUserServer) := by
  have hcount : "+1 (555) 123-4567".data.count '+' ≤ 1 := by decide
  have hlead : ∀ pre post, "+1 (555) 123-4567".data = pre ++ '+' :: post →
      ∀ c ∈ pre, c.isDigit = false := by
    intro pre post hsplit c hc
    cases pre with
    | nil => simp at hc
    | cons p ps =>
      exfalso
      have hmem : '+' ∈ "1 (555) 123-4567".data := by
        have h2 : "1 (555) 123-4567".data = ps ++ '+' :: post := by
          have := List.tail_eq_of_cons_eq hsplit
          exact this
        rw [h2]; simp
      revert hmem; decide
  exact (formatPhoneNumber_leading_plus "+1 (555) 123-4567" hcount hlead).2.2.1

/-! ## Registry and durable-record lemmas -/

section Lemmas

variable {C : Type}

theorem updateSessionStatus_sessions (w : World C) (userID : Nat) (a b : Bool) :
    (updateSessionStatus w userID a b).sessions = w.sessions := by
  unfold updateSessionStatus dbFirst
  cases h : w.db userID <;> cases hu : w.users userID <;> simp [dbCreate, dbSave, hu]

theorem updateSessionStatus_db (w : World C) (userID : Nat) (a b : Bool) :
    ∃ row, row.IsConnected = a ∧ row.IsLoggedIn = b ∧ row.LastActiveAt = w.now ∧
      (updateSessionStatus w userID a b).trace =
        w.trace ++ [if (w.db userID).isSome then Call.dbSave userID row
                    else Call.dbCreate userID row] ∧
      ((w.db userID).isSome = true ∨ w.users userID = true →
        (updateSessionStatus w userID a b).db = Function.update w.db userID (some row)) ∧
      ((w.db userID).isSome = false → w.users userID = false →
        (updateSessionStatus w userID a b).db = w.db) := by
  unfold updateSessionStatus dbFirst
  cases h : w.db userID with
  | none =>
    refine ⟨{ IsConnected := a, IsLoggedIn := b, LastActiveAt := w.now }, rfl, rfl, rfl,
      ?_, ?_, ?_⟩
    · cases hu : w.users userID <;> simp [dbCreate, hu]
    · intro hor
      have hu : w.users userID = true := by simpa using hor
      simp [dbCreate, hu]
    · intro _ hu
      simp [dbCreate, hu]
  | some r =>
    exact ⟨{ r with IsConnected := a, IsLoggedIn := b, LastActiveAt := w.now }, rfl, rfl,
      rfl, by simp [dbSave], fun _ => by simp [dbSave], fun hn => by simp at hn⟩

theorem updateSessionStatus_count_connect (w : World C) (userID v : Nat) (a b : Bool) :
    (updateSessionStatus w userID a b).trace.count (.clientConnect v) =
      w.trace.count (.clientConnect v) := by
  unfold updateSessionStatus dbFirst
  cases h : w.db userID <;> cases hu : w.users userID <;>
    simp [dbCreate, dbSave, hu, List.count_append, List.count_cons]

theorem removeUserSession_sessions (w : World C) (userID : Nat) :
    (removeUserSession w userID).sessions = Function.update w.sessions userID none := by
  unfold removeUserSession
  cases h : w.sessions userID with
  | none =>
    funext u
    by_cases hu : u = userID
    · subst hu; simp [h]
    · simp [Function.update_noteq hu]
  | some s =>
    simp only [World.deleteSession]
    split_ifs <;> rfl

theorem removeUserSession_db (w : World C) (userID : Nat) :
    (removeUserSession w userID).db = w.db := by
  unfold removeUserSession
  cases h : w.sessions userID with
  | none => rfl
  | some s =>
    simp only [World.deleteSession]
    split_ifs <;> rfl

theorem removeUserSession_absent (w : World C) (userID : Nat)
    (h : w.sessions userID = none) : removeUserSession w userID = w := by
  unfold removeUserSession
  rw [h]

end Lemmas

/-! ## Dispatcher preconditions -/

section Claims

variable {C : Type}

/-- C4: `SendMessage` and `SendMediaMessage` apply the same four checks in the same order.
Both fail with the not-connected error when the tenant has no session or its client is
nil; otherwise with the not-logged-in error when the client has no identity; otherwise
with the transport-down error when the transport is not connected; otherwise with the
not-marked-connected error when the session flag is false.  In each case both return the
same error and leave the state as it was, and the four errors are pairwise distinct. -/
theorem send_precondition_errors (lib : Whatsmeow C) (w : World C) (ctx : Context)
    (userID : Nat) (req : SendMessageDTO) (mreq : SendMediaMessageDTO)
    (hctx : getUserIDFromContext ctx = .ok userID) :
    ((w.sessions userID = none ∨ ∃ s, w.sessions userID = some s ∧ s.Client = none) →
        SendMessage lib w ctx req = (.error WHATSAPP_NOT_CONNECTED, w) ∧
        SendMediaMessage lib w ctx mreq = (.error WHATSAPP_NOT_CONNECTED, w)) ∧
      (∀ s c, w.sessions userID = some s → s.Client = some c →
        (lib.StoreID c = none →
          SendMessage lib w ctx req = (.error errNotLoggedIn, w) ∧
          SendMediaMessage lib w ctx mreq = (.error errNotLoggedIn, w)) ∧
        (lib.StoreID c ≠ none → lib.IsConnected c = false →
          SendMessage lib w ctx req = (.error errTransportDown, w) ∧
          SendMediaMessage lib w ctx mreq = (.error errTransportDown, w)) ∧
        (lib.StoreID c ≠ none → lib.IsConnected c = true → s.IsConnected = false →
          SendMessage lib w ctx req = (.error errNotMarkedConnected, w) ∧
          SendMediaMessage lib w ctx mreq = (.error errNotMarkedConnected, w))) ∧
      [WHATSAPP_NOT_CONNECTED, errNotLoggedIn, errTransportDown,
        errNotMarkedConnected].Nodup := by
  refine ⟨?_, ?_, by decide⟩
  · rintro (h | ⟨s, hs, hc⟩)
    · simp [SendMessage, SendMediaMessage, hctx, h]
    · simp [SendMessage, SendMediaMessage, hctx, hs, hc]
  · intro s c hs hc
    refine ⟨?_, ?_, ?_⟩
    · intro hid
      simp [SendMessage, SendMediaMessage, hctx, hs, hc, hid]
    · intro hid hconn
      have hid' : (lib.StoreID c).isNone = false := by
        cases h : lib.StoreID c with
        | none => exact absurd h hid
        | some j => rfl
      simp [SendMessage, SendMediaMessage, hctx, hs, hc, hid', hconn]
    · intro hid hconn hflag
      have hid' : (lib.StoreID c).isNone = false := by
        cases h : lib.StoreID c with
        | none => exact absurd h hid
        | some j => rfl
      simp [SendMessage, SendMediaMessage, hctx, hs, hc, hid', hconn, hflag]

/-- C4, witness: a session with an identity and a live transport whose flag is unset. -/
theorem send_precondition_errors_witness :
    SendMessage (simLib [] none) (simWorld 7 (some (NewJID "15551234567" DefaultUserServer))
        true false) (ginContextFor 7) { PhoneNumber := "+1 (555) 123-4567", Message := "hi" } =
      (.error errNotMarkedConnected,
        simWorld 7 (some (NewJID "15551234567" DefaultUserServer)) true false) :=
  ((send_precondition_errors (simLib [] none)
      (simWorld 7 (some (NewJID "15551234567" DefaultUserServer)) true false)
      (ginContextFor 7) 7 { PhoneNumber := "+1 (555) 123-4567", Message := "hi" }
      { PhoneNumber := "+1 (555) 123-4567", Caption := "", MediaData := [], MimeType := "image/png",
        Height := 1, Width := 1 } rfl).2.1
    (simSession 7 (some (NewJID "15551234567" DefaultUserServer)) true false)
    { identity := some (NewJID "15551234567" DefaultUserServer), connected := true, pairing := [] }
    (by simp [simWorld, World.setSession]) rfl).2.2 (by simp [simLib]) rfl rfl |>.1

/-- C5: on a session whose connected flag is false, `SendMessage` returns an error, which
is one of the four precondition errors, and the whole state is as before: no send and no
upload is recorded in the trace, and the registry, the session and the durable table are
unchanged. -/
theorem sendMessage_unmarked_session (lib : Whatsmeow C) (w : World C) (ctx : Context)
    (userID : Nat) (session : UserSession C) (req : SendMessageDTO)
    (hctx : getUserIDFromContext ctx = .ok userID)
    (hs : w.sessions userID = some session) (hflag : session.IsConnected = false) :
    ∃ err, SendMessage lib w ctx req = (.error err, w) ∧
      err ∈ [WHATSAPP_NOT_CONNECTED, errNotLoggedIn, errTransportDown,
        errNotMarkedConnected] := by
  unfold SendMessage
  simp only [hctx, hs]
  cases hc : session.Client with
  | none => exact ⟨_, rfl, by simp⟩
  | some c =>
    by_cases h1 : (lib.StoreID c).isNone = true
    · exact ⟨errNotLoggedIn, by simp [h1], by simp⟩
    · by_cases h2 : lib.IsConnected c = true
      · exact ⟨errNotMarkedConnected, by simp [h1, h2, hflag], by simp⟩
      · exact ⟨errTransportDown, by simp [h1, h2], by simp⟩

/-- C5, witness: the theorem on a session with identity and transport whose flag is unset. -/
theorem sendMessage_unmarked_session_witness :
    ∃ err, SendMessage (simLib [] none)
        (simWorld 7 (some (NewJID "15551234567" DefaultUserServer)) true false)
        (ginContextFor 7) { PhoneNumber := "+1 (555) 123-4567", Message := "hi" } =
      (.error err, simWorld 7 (some (NewJID "15551234567" DefaultUserServer)) true false) ∧
      err ∈ [WHATSAPP_NOT_CONNECTED, errNotLoggedIn, errTransportDown,
        errNotMarkedConnected] :=
  sendMessage_unmarked_session (simLib [] none)
    (simWorld 7 (some (NewJID "15551234567" DefaultUserServer)) true false)
    (ginContextFor 7) 7 (simSession 7 (some (NewJID "15551234567" DefaultUserServer)) true false)
    { PhoneNumber := "+1 (555) 123-4567", Message := "hi" } rfl
    (by simp [simWorld, World.setSession]) rfl


/-! ## Connect -/

/-- C6: `Connect` fails with the no-session error when the registry has no session for the
tenant, and with the not-logged-in error when a session exists whose client is nil or has
no identity.  In both cases the state is as before: no connect call is recorded, and the
registry, the connected flag and the durable table are unchanged. -/
theorem connect_rejects_unpaired (lib : Whatsmeow C) (w : World C) (ctx : Context)
    (userID : Nat) (hctx : getUserIDFromContext ctx = .ok userID) :
    (w.sessions userID = none → Connect lib w ctx = (some errNoSession, w)) ∧
      (∀ s, w.sessions userID = some s →
        (s.Client = none ∨ ∃ c, s.Client = some c ∧ lib.StoreID c = none) →
        Connect lib w ctx = (some errNotLoggedIn, w)) ∧
      errNoSession ≠ errNotLoggedIn := by
  refine ⟨?_, ?_, by decide⟩
  · intro h
    simp [Connect, hctx, h]
  · rintro s hs (hc | ⟨c, hc, hid⟩)
    · simp [Connect, hctx, hs, hc]
    · simp [Connect, hctx, hs, hc, hid]

/-- C6, witness: a tenant without a session. -/
theorem connect_rejects_unpaired_witness :
    Connect (simLib [] none) (NewService SimClient 0) (ginContextFor 7) =
      (some errNoSession, NewService SimClient 0) :=
  (connect_rejects_unpaired (simLib [] none) (NewService SimClient 0) (ginContextFor 7) 7
    rfl).1 rfl

/-- C7 (counterexample): tenant 0 has no row in the `users` table and no durable row; its
session has an identity and its transport is down.  `Connect` invokes the connect
primitive, succeeds and sets the session flag, yet no durable row is written: the insert
is refused by the foreign key and the error is discarded. -/
theorem connect_unregistered_tenant_writes_no_row :
    (Connect (simLib [] none)
        (simWorld 0 (some (NewJID "15551234567" DefaultUserServer)) false false)
        (ginContextFor 0)).1 = none ∧
      ((Connect (simLib [] none)
        (simWorld 0 (some (NewJID "15551234567" DefaultUserServer)) false false)
        (ginContextFor 0)).2.sessions 0).map (fun s => s.IsConnected) = some true ∧
      (Connect (simLib [] none)
        (simWorld 0 (some (NewJID "15551234567" DefaultUserServer)) false false)
        (ginContextFor 0)).2.trace =
        [.clientConnect 0,
          .dbCreate 0 { IsConnected := true, IsLoggedIn := true, LastActiveAt := 0 }] ∧
      (Connect (simLib [] none)
        (simWorld 0 (some (NewJID "15551234567" DefaultUserServer)) false false)
        (ginContextFor 0)).2.db 0 = none := by
  refine ⟨rfl, rfl, rfl, rfl⟩

/-- C7 (amended): for a session whose client reports an identity.  If the session flag and
the transport are both connected, `Connect` succeeds and the state is as before (no
connect call, no durable write).  If the transport is disconnected, `Connect` calls the
connect primitive exactly once; when that call succeeds, `Connect` succeeds, the session
flag is true and the durable upsert with connected and logged-in both true is issued,
which writes the tenant's row whenever the tenant already has a durable row or its id is
in the `users` table; when that call fails, `Connect` returns an error, the session flag
is as before and the durable table is unchanged. -/
theorem connect_with_identity (lib : Whatsmeow C) (w : World C) (ctx : Context)
    (userID : Nat) (s : UserSession C) (c : C)
    (hctx : getUserIDFromContext ctx = .ok userID)
    (hs : w.sessions userID = some s) (hc : s.Client = some c)
    (hid : lib.StoreID c ≠ none) :
    (s.IsConnected = true → lib.IsConnected c = true → Connect lib w ctx = (none, w)) ∧
      (lib.IsConnected c = false →
        (Connect lib w ctx).2.trace.count (.clientConnect userID) =
            w.trace.count (.clientConnect userID) + 1 ∧
          (∀ c1, lib.Connect c = (none, c1) →
            (Connect lib w ctx).1 = none ∧
            (Connect lib w ctx).2.sessions =
              Function.update w.sessions userID
                (some { s with Client := some c1, IsConnected := true }) ∧
            ∃ row, row.IsConnected = true ∧ row.IsLoggedIn = true ∧
              (Connect lib w ctx).2.trace =
                w.trace ++ [.clientConnect userID,
                  if (w.db userID).isSome then .dbSave userID row
                  else .dbCreate userID row] ∧
              ((w.db userID).isSome = true ∨ w.users userID = true →
                (Connect lib w ctx).2.db = Function.update w.db userID (some row))) ∧
          (∀ err c1, lib.Connect c = (some err, c1) →
            (Connect lib w ctx).1 = some ("failed to connect: " ++ err) ∧
            (Connect lib w ctx).2.sessions =
              Function.update w.sessions userID (some { s with Client := some c1 }) ∧
            (Connect lib w ctx).2.db = w.db ∧
            (Connect lib w ctx).2.trace = w.trace ++ [.clientConnect userID])) := by
  have hid' : (lib.StoreID c).isSome = true := by
    cases h : lib.StoreID c with
    | none => exact absurd h hid
    | some j => rfl
  have hsucc : ∀ c1, lib.IsConnected c = false → lib.Connect c = (none, c1) →
      Connect lib w ctx = (none, updateSessionStatus
        ((w.call (.clientConnect userID)).setSession userID
          { s with Client := some c1, IsConnected := true }) userID true true) := by
    intro c1 hconn hconnect
    simp [Connect, hctx, hs, hc, hid', hconn, hconnect]
  have hfail : ∀ err c1, lib.IsConnected c = false → lib.Connect c = (some err, c1) →
      Connect lib w ctx = (some ("failed to connect: " ++ err),
        (w.call (.clientConnect userID)).setSession userID { s with Client := some c1 }) := by
    intro err c1 hconn hconnect
    simp [Connect, hctx, hs, hc, hid', hconn, hconnect]
  refine ⟨?_, ?_⟩
  · intro hflag hconn
    simp [Connect, hctx, hs, hc, hid', hflag, hconn]
  · intro hconn
    refine ⟨?_, ?_, ?_⟩
    · rcases hconnect : lib.Connect c with ⟨_ | err, c1⟩
      · rw [hsucc c1 hconn hconnect]
        simp [updateSessionStatus_count_connect, World.call, World.setSession,
          List.count_append]
      · rw [hfail err c1 hconn hconnect]
        simp [World.call, World.setSession, List.count_append]
    · intro c1 hconnect
      obtain ⟨row, h1, h2, -, htr, hdb, -⟩ := updateSessionStatus_db
        ((w.call (.clientConnect userID)).setSession userID
          { s with Client := some c1, IsConnected := true }) userID true true
      have hsess := updateSessionStatus_sessions
        ((w.call (.clientConnect userID)).setSession userID
          { s with Client := some c1, IsConnected := true }) userID true true
      rw [hsucc c1 hconn hconnect]
      refine ⟨rfl, ?_, row, h1, h2, ?_, ?_⟩
      · simpa [World.call, World.setSession] using hsess
      · simpa [World.call, World.setSession] using htr
      · intro hor
        simpa [World.call, World.setSession] using hdb hor
    · intro err c1 hconnect
      rw [hfail err c1 hconn hconnect]
      simp [World.call, World.setSession]

/-- C7 (amended), witness: registered tenant 7, paired, transport down: `Connect` writes
the durable row with both flags true. -/
theorem connect_with_identity_witness :
    ∃ row, (Connect (simLib [] none)
        (simWorld 7 (some (NewJID "15551234567" DefaultUserServer)) false false)
        (ginContextFor 7)).2.db 7 = some row ∧
      row.IsConnected = true ∧ row.IsLoggedIn = true := by
  obtain ⟨-, -, row, h1, h2, -, hdb⟩ := ((connect_with_identity (simLib [] none)
      (simWorld 7 (some (NewJID "15551234567" DefaultUserServer)) false false)
      (ginContextFor 7) 7
      (simSession 7 (some (NewJID "15551234567" DefaultUserServer)) false false)
      { identity := some (NewJID "15551234567" DefaultUserServer), connected := false,
        pairing := [] }
      rfl (by simp [simWorld, World.setSession]) rfl (by simp [simLib])).2 rfl).2.1
    { identity := some (NewJID "15551234567" DefaultUserServer), connected := true,
      pairing := [] } rfl
  refine ⟨row, ?_, h1, h2⟩
  rw [hdb (Or.inr rfl)]
  simp

/-! ## Disconnect -/

/-- C8: `Disconnect` returns success and the registry afterwards is the registry before
with the tenant's entry erased.  For an absent tenant the whole state is as before, a
second `Disconnect` changes nothing further, and the session of every other tenant is
untouched. -/
theorem disconnect_erases_entry (w : World C) (ctx : Context) (userID : Nat)
    (hctx : getUserIDFromContext ctx = .ok userID) :
    (Disconnect w ctx).1 = none ∧
      (Disconnect w ctx).2.sessions = Function.update w.sessions userID none ∧
      (w.sessions userID = none → (Disconnect w ctx).2 = w) ∧
      Disconnect (Disconnect w ctx).2 ctx = (none, (Disconnect w ctx).2) ∧
      (∀ u, u ≠ userID → (Disconnect w ctx).2.sessions u = w.sessions u) := by
  have hd : Disconnect w ctx = (none, removeUserSession w userID) := by
    simp [Disconnect, hctx]
  have hgone : (removeUserSession w userID).sessions userID = none := by
    rw [removeUserSession_sessions]; simp
  refine ⟨by rw [hd], ?_, ?_, ?_, ?_⟩
  · rw [hd]; exact removeUserSession_sessions w userID
  · intro h
    rw [hd]; exact removeUserSession_absent w userID h
  · rw [hd]
    simp only [Disconnect, hctx]
    rw [removeUserSession_absent _ userID hgone]
  · intro u hu
    rw [hd]
    simp [removeUserSession_sessions, Function.update_noteq hu]

/-- C8, witness: disconnecting the only session leaves the empty registry. -/
theorem disconnect_erases_entry_witness :
    (Disconnect (simWorld 7 none false false) (ginContextFor 7)).2.sessions =
      Function.update (simWorld 7 none false false).sessions 7 none :=
  (disconnect_erases_entry (simWorld 7 none false false) (ginContextFor 7) 7 rfl).2.1

/-! ## Disconnect followed by another operation -/

/-- C9 (counterexample): tenant 1 requests a pairing code, which records a durable row,
and disconnects.  `GetStatus` then answers from the surviving row, whereas for a tenant
that never had a session it answers that nothing was initialised. -/
theorem getStatus_after_disconnect_differs :
    (runOp (simLib [{ Event := "code", Code := "ABC123", Error := none }] none)
        (Disconnect
          (GetQRCode (simLib [{ Event := "code", Code := "ABC123", Error := none }] none)
            (NewService SimClient 0) (ginContextFor 1)).2
          (ginContextFor 1)).2
        (ginContextFor 1) .GetStatus).1 =
        .GetStatus (.ok "Previous session existed but expired") ∧
      (runOp (simLib [{ Event := "code", Code := "ABC123", Error := none }] none)
        (NewService SimClient 0) (ginContextFor 1) .GetStatus).1 =
        .GetStatus (.ok "Not initialized") ∧
      (runOp (simLib [{ Event := "code", Code := "ABC123", Error := none }] none)
        (Disconnect
          (GetQRCode (simLib [{ Event := "code", Code := "ABC123", Error := none }] none)
            (NewService SimClient 0) (ginContextFor 1)).2
          (ginContextFor 1)).2
        (ginContextFor 1) .GetStatus).1 ≠
      (runOp (simLib [{ Event := "code", Code := "ABC123", Error := none }] none)
        (NewService SimClient 0) (ginContextFor 1) .GetStatus).1 := by
  refine ⟨rfl, rfl, ?_⟩
  decide

theorem qrLoop_result (userID : Nat) (w w0 : World C) (s s0 : UserSession C)
    (items : List QRChannelItem) :
    (qrLoop userID w s items).1 = (qrLoop userID w0 s0 items).1 := by
  induction items with
  | nil => rfl
  | cons evt rest ih =>
    simp only [qrLoop]
    split_ifs <;> first | rfl | exact ih

theorem getQRCode_result_of_absent (lib : Whatsmeow C) (w w0 : World C) (ctx : Context)
    (userID : Nat) (hctx : getUserIDFromContext ctx = .ok userID)
    (h : w.sessions userID = none) (h0 : w0.sessions userID = none) :
    (GetQRCode lib w ctx).1 = (GetQRCode lib w0 ctx).1 := by
  cases hnew : lib.New userID with
  | error e => simp [GetQRCode, hctx, h, h0, getUserSession, initializeUserClient, hnew]
  | ok db =>
    cases hdev : lib.GetFirstDevice db with
    | error e =>
      simp [GetQRCode, hctx, h, h0, getUserSession, initializeUserClient, hnew, hdev]
    | ok dev =>
      cases hid : lib.StoreID (lib.AddEventHandler (lib.NewClient dev)) with
      | some j =>
        simp [GetQRCode, hctx, h, h0, getUserSession, initializeUserClient, hnew, hdev, hid]
      | none =>
        rcases hqr : lib.GetQRChannel (lib.AddEventHandler (lib.NewClient dev)) with
          ⟨e | items, c1⟩
        · simp [GetQRCode, hctx, h, h0, getUserSession, initializeUserClient, hnew, hdev, hid,
            hqr]
        · rcases hcon : lib.Connect c1 with ⟨_ | e, c2⟩
          · simp only [GetQRCode, hctx, h, h0, getUserSession, initializeUserClient, hnew,
              hdev, hid, hqr, hcon, Option.isSome_none, Bool.false_eq_true, if_false,
              Bool.and_self, Bool.false_and]
            exact congrArg Outcome.returned (qrLoop_result _ _ _ _ _ _)
          · simp [GetQRCode, hctx, h, h0, getUserSession, initializeUserClient, hnew, hdev,
              hid, hqr, hcon]

/-- C9 (amended): after `Disconnect`, every public operation other than `GetStatus`
returns what it returns in any state in which the tenant has no session, and `GetStatus`
does so whenever the tenant's durable row is the same in both states (`Disconnect` does
not erase the row). -/
theorem op_after_disconnect (lib : Whatsmeow C) (w w0 : World C) (ctx : Context)
    (userID : Nat) (op : Op) (hctx : getUserIDFromContext ctx = .ok userID)
    (h0 : w0.sessions userID = none)
    (hdb : op = .GetStatus → w0.db userID = w.db userID) :
    (runOp lib (Disconnect w ctx).2 ctx op).1 = (runOp lib w0 ctx op).1 := by
  have hd : (Disconnect w ctx).2 = removeUserSession w userID := by
    simp [Disconnect, hctx]
  have h1 : (removeUserSession w userID).sessions userID = none := by
    rw [removeUserSession_sessions]; simp
  have h2 : (removeUserSession w userID).db = w.db := removeUserSession_db w userID
  rw [hd]
  cases op with
  | Connect => simp [runOp, Connect, hctx, h0, h1]
  | Disconnect => simp [runOp, Disconnect, hctx]
  | SendMessage req => simp [runOp, SendMessage, hctx, h0, h1]
  | SendMediaMessage req => simp [runOp, SendMediaMessage, hctx, h0, h1]
  | GetQRCode =>
    simp only [runOp, Prod.map_fst]
    rw [getQRCode_result_of_absent lib _ w0 ctx userID hctx h1 h0]
  | CheckConnection phoneNumber => simp [runOp, CheckConnection, hctx, h0, h1]
  | GetStatus =>
    simp only [runOp, GetStatus, statusFromRecord, dbFirst, hctx, h0, h1, h2, hdb rfl,
      Prod.map_fst]
    cases hrow : w.db userID with
    | none => rfl
    | some row => simp only []; split_ifs <;> rfl
  | GetContacts => simp [runOp, GetContacts, hctx, h0, h1]

/-- C9 (amended), witness: `Connect` after `Disconnect` answers as for a fresh service. -/
theorem op_after_disconnect_witness :
    (runOp (simLib [] none) (Disconnect (simWorld 7 none false false) (ginContextFor 7)).2
        (ginContextFor 7) .Connect).1 =
      (runOp (simLib [] none) (NewService SimClient 0) (ginContextFor 7) .Connect).1 :=
  op_after_disconnect (simLib [] none) (simWorld 7 none false false) (NewService SimClient 0)
    (ginContextFor 7) 7 .Connect rfl rfl (fun h => Op.noConfusion h)

/-! ## Session creation -/

/-- C11: for a tenant with no session, when creating the credential store fails, or
retrieving the device fails, `getUserSession` returns an error; the only calls it makes
are the failed initialisation steps followed by the cancellation of the new session (no
event-processing loop is started), and the registry and the durable table are as before,
so the tenant still has no entry. -/
theorem getUserSession_init_failure (lib : Whatsmeow C) (w : World C) (userID : Nat)
    (hs : w.sessions userID = none) :
    (∀ e, lib.New userID = .error e →
        getUserSession lib w userID =
          (.error ("failed to initialize client for user " ++ toString userID ++ ": " ++
              ("failed to create in-memory database: " ++ e)),
            { w with trace := w.trace ++ [.sqlstoreNew userID, .cancel userID] })) ∧
      (∀ db e, lib.New userID = .ok db → lib.GetFirstDevice db = .error e →
        getUserSession lib w userID =
          (.error ("failed to initialize client for user " ++ toString userID ++ ": " ++
              ("failed to get device: " ++ e)),
            { w with trace := w.trace ++
                [.sqlstoreNew userID, .getFirstDevice userID, .cancel userID] })) := by
  refine ⟨?_, ?_⟩
  · intro e hnew
    simp [getUserSession, initializeUserClient, hs, hnew, World.call]
  · intro db e hnew hdev
    simp [getUserSession, initializeUserClient, hs, hnew, hdev, World.call]

/-- C11, witness: a library whose credential store cannot be created. -/
theorem getUserSession_init_failure_witness :
    getUserSession simLibNoStore (NewService SimClient 0) 7 =
      (.error ("failed to initialize client for user " ++ toString 7 ++ ": " ++
          ("failed to create in-memory database: " ++ "unable to open database file")),
        { NewService SimClient 0 with
          trace := (NewService SimClient 0).trace ++ [.sqlstoreNew 7, .cancel 7] }) :=
  (getUserSession_init_failure simLibNoStore (NewService SimClient 0) 7 rfl).1
    "unable to open database file" rfl

/-! ## Pairing -/

/-- C12: for a tenant whose session's client already has an identity, `GetQRCode` returns
the already-logged-in text and the state is as before: no pairing channel is obtained, no
connect call is made, no code is issued, and the registry and the session flag are
unchanged.  After any number of such calls the next call returns the same. -/
theorem getQRCode_already_logged_in (lib : Whatsmeow C) (w : World C) (ctx : Context)
    (userID : Nat) (s : UserSession C) (c : C)
    (hctx : getUserIDFromContext ctx = .ok userID)
    (hs : w.sessions userID = some s) (hc : s.Client = some c)
    (hid : lib.StoreID c ≠ none) :
    GetQRCode lib w ctx = (.returned (.ok (msgAlreadyLoggedIn userID)), w) ∧
      ∀ n : Nat,
        GetQRCode lib ((fun v => (GetQRCode lib v ctx).2)^[n] w) ctx =
          (.returned (.ok (msgAlreadyLoggedIn userID)), w) := by
  have hid' : (lib.StoreID c).isSome = true := by
    cases h : lib.StoreID c with
    | none => exact absurd h hid
    | some j => rfl
  have h1 : GetQRCode lib w ctx = (.returned (.ok (msgAlreadyLoggedIn userID)), w) := by
    simp [GetQRCode, hctx, hs, hc, hid', msgAlreadyLoggedIn]
  refine ⟨h1, ?_⟩
  intro n
  have hfix : (fun v => (GetQRCode lib v ctx).2)^[n] w = w := by
    apply Function.iterate_fixed
    simp [h1]
  rw [hfix, h1]

/-- C12, witness: a paired and connected session. -/
theorem getQRCode_already_logged_in_witness :
    GetQRCode (simLib [] none)
        (simWorld 7 (some (NewJID "15551234567" DefaultUserServer)) true true)
        (ginContextFor 7) =
      (.returned (.ok (msgAlreadyLoggedIn 7)),
        simWorld 7 (some (NewJID "15551234567" DefaultUserServer)) true true) :=
  (getQRCode_already_logged_in (simLib [] none)
    (simWorld 7 (some (NewJID "15551234567" DefaultUserServer)) true true)
    (ginContextFor 7) 7
    (simSession 7 (some (NewJID "15551234567" DefaultUserServer)) true true)
    { identity := some (NewJID "15551234567" DefaultUserServer), connected := true,
      pairing := [] }
    rfl (by simp [simWorld, World.setSession]) rfl (by simp [simLib])).1

theorem pairingCalls_append (userID : Nat) (a b : List Call) :
    pairingCalls userID (a ++ b) = pairingCalls userID a ++ pairingCalls userID b := by
  simp [pairingCalls]

theorem updateSessionStatus_trace (w : World C) (userID : Nat) (a b : Bool) :
    ∃ extra, (updateSessionStatus w userID a b).trace = w.trace ++ extra ∧
      ∀ v, pairingCalls v extra = [] := by
  obtain ⟨row, -, -, -, htr, -, -⟩ := updateSessionStatus_db w userID a b
  refine ⟨_, htr, ?_⟩
  intro v
  split_ifs <;> simp [pairingCalls]

theorem qrLoop_trace (userID : Nat) (w : World C) (s : UserSession C)
    (items : List QRChannelItem) :
    ∃ extra, (qrLoop userID w s items).2.trace = w.trace ++ extra ∧
      ∀ v, pairingCalls v extra = [] := by
  induction items with
  | nil => exact ⟨[], by simp [qrLoop], fun _ => rfl⟩
  | cons evt rest ih =>
    simp only [qrLoop]
    split_ifs
    · exact updateSessionStatus_trace w userID true false
    · obtain ⟨extra, h1, h2⟩ := updateSessionStatus_trace
        (w.setSession userID { s with IsConnected := true }) userID true true
      exact ⟨extra, by simpa [World.setSession] using h1, h2⟩
    · exact ⟨[], by simp, fun _ => rfl⟩
    · exact ⟨[], by simp, fun _ => rfl⟩
    · exact ih

/-- The state in which `GetQRCode` enters its loop for a new tenant, after the session was
created, the pairing channel obtained and the connect primitive invoked. -/
theorem getQRCode_new_session (lib : Whatsmeow C) (w : World C) (ctx : Context)
    (userID : Nat) (db : Container) (dev : Device) (items : List QRChannelItem) (c1 c2 : C)
    (hctx : getUserIDFromContext ctx = .ok userID) (hs : w.sessions userID = none)
    (hnew : lib.New userID = .ok db) (hdev : lib.GetFirstDevice db = .ok dev)
    (hid : lib.StoreID (lib.AddEventHandler (lib.NewClient dev)) = none)
    (hqr : lib.GetQRChannel (lib.AddEventHandler (lib.NewClient dev)) = (.ok items, c1))
    (hcon : lib.Connect c1 = (none, c2)) :
    ∃ w1 : World C, (∃ extra, w1.trace = w.trace ++ extra ∧
        pairingCalls userID extra = [.getQRChannel userID, .clientConnect userID]) ∧
      w1.sessions userID = some (initializedSession userID db c2) ∧
      GetQRCode lib w ctx =
        (.returned (qrLoop userID w1 (initializedSession userID db c2) items).1,
          (qrLoop userID w1 (initializedSession userID db c2) items).2) := by
  obtain ⟨extra, h1, h2⟩ := updateSessionStatus_trace
    ((((w.call (.sqlstoreNew userID)).call (.getFirstDevice userID)).call
      (.newClient userID)).call (.addEventHandler userID)) userID false false
  refine ⟨((((((updateSessionStatus
      ((((w.call (.sqlstoreNew userID)).call (.getFirstDevice userID)).call
        (.newClient userID)).call (.addEventHandler userID)) userID false false).call
      (.goEventProcessor userID)).setSession userID
        (initializedSession userID db (lib.AddEventHandler (lib.NewClient dev)))).call
      (.getQRChannel userID)).call (.clientConnect userID)).setSession userID
        (initializedSession userID db c2)),
    ⟨[.sqlstoreNew userID, .getFirstDevice userID, .newClient userID,
        .addEventHandler userID] ++ extra ++
      [.goEventProcessor userID, .getQRChannel userID, .clientConnect userID], ?_, ?_⟩,
    ?_, ?_⟩
  · simp only [World.setSession, World.call] at h1 ⊢
    rw [h1]
    simp
  · rw [pairingCalls_append, pairingCalls_append, h2]
    simp [pairingCalls]
  · simp [World.setSession]
  · simp only [GetQRCode, hctx, hs, getUserSession, initializeUserClient, hnew, hdev, hid,
      hqr, hcon, Option.isSome_none, Bool.false_eq_true, if_false, Bool.and_self,
      Bool.false_and]
    rfl

/-- C13 (counterexample): tenant 7 already has a session whose client has no identity.
`GetQRCode` returns the pairing-in-progress text and records no call at all: the pairing
channel is not obtained and the connect primitive is not invoked. -/
theorem getQRCode_existing_session_no_subscribe :
    (GetQRCode (simLib [{ Event := "code", Code := "ABC123", Error := none }] none)
        (simWorld 7 none false false) (ginContextFor 7)).1 =
        .returned (.ok (msgPairingInProgress 7)) ∧
      (GetQRCode (simLib [{ Event := "code", Code := "ABC123", Error := none }] none)
        (simWorld 7 none false false) (ginContextFor 7)).2.trace = [] ∧
      pairingCalls 7
        (GetQRCode (simLib [{ Event := "code", Code := "ABC123", Error := none }] none)
          (simWorld 7 none false false) (ginContextFor 7)).2.trace ≠
        [.getQRChannel 7, .clientConnect 7] := by
  refine ⟨rfl, rfl, ?_⟩
  decide

/-- C13 (amended): when `GetQRCode` is called for a tenant with no session and the client
of the session it creates has no identity, it obtains the pairing channel and then invokes
the connect primitive, in that order and once each; when obtaining the channel fails the
connect primitive is not invoked.  When the session already existed with a client that
has no identity, `GetQRCode` does neither: it returns the pairing-in-progress text and
the state is as before. -/
theorem getQRCode_subscribes_before_connect (lib : Whatsmeow C) (w : World C)
    (ctx : Context) (userID : Nat) (hctx : getUserIDFromContext ctx = .ok userID) :
    (∀ s c, w.sessions userID = some s → s.Client = some c → lib.StoreID c = none →
        GetQRCode lib w ctx = (.returned (.ok (msgPairingInProgress userID)), w)) ∧
      (w.sessions userID = none → ∀ db dev, lib.New userID = .ok db →
        lib.GetFirstDevice db = .ok dev →
        lib.StoreID (lib.AddEventHandler (lib.NewClient dev)) = none →
        ∃ extra, (GetQRCode lib w ctx).2.trace = w.trace ++ extra ∧
          pairingCalls userID extra =
            (match (lib.GetQRChannel (lib.AddEventHandler (lib.NewClient dev))).1 with
             | .ok _ => [.getQRChannel userID, .clientConnect userID]
             | .error _ => [.getQRChannel userID])) := by
  refine ⟨?_, ?_⟩
  · intro s c hs hc hid
    simp [GetQRCode, hctx, hs, hc, hid, msgPairingInProgress]
  · intro hs db dev hnew hdev hid
    obtain ⟨extra, h1, h2⟩ := updateSessionStatus_trace
      ((((w.call (.sqlstoreNew userID)).call (.getFirstDevice userID)).call
        (.newClient userID)).call (.addEventHandler userID)) userID false false
    simp only [World.setSession, World.call] at h1
    rcases hqr : lib.GetQRChannel (lib.AddEventHandler (lib.NewClient dev)) with
      ⟨e | items, c1⟩
    · refine ⟨[.sqlstoreNew userID, .getFirstDevice userID, .newClient userID,
        .addEventHandler userID] ++ extra ++
        [.goEventProcessor userID, .getQRChannel userID], ?_, ?_⟩
      · simp only [GetQRCode, hctx, hs, getUserSession, initializeUserClient, hnew, hdev,
          hid, hqr, Option.isSome_none, Bool.false_eq_true, if_false, Bool.and_self,
          Bool.false_and, World.setSession, World.call]
        rw [h1]
        simp
      · rw [pairingCalls_append, pairingCalls_append, h2]
        simp [pairingCalls]
    · rcases hcon : lib.Connect c1 with ⟨_ | e, c2⟩
      · obtain ⟨w1, ⟨ex1, ht1, hp1⟩, -, hrun⟩ := getQRCode_new_session lib w ctx userID db dev
          items c1 c2 hctx hs hnew hdev hid hqr hcon
        obtain ⟨ex2, ht2, hp2⟩ := qrLoop_trace userID w1 (initializedSession userID db c2) items
        refine ⟨ex1 ++ ex2, ?_, ?_⟩
        · rw [hrun]
          simp only [ht2, ht1, List.append_assoc]
        · rw [pairingCalls_append, hp1, hp2]
          rfl
      · refine ⟨[.sqlstoreNew userID, .getFirstDevice userID, .newClient userID,
          .addEventHandler userID] ++ extra ++
          [.goEventProcessor userID, .getQRChannel userID, .clientConnect userID], ?_, ?_⟩
        · simp only [GetQRCode, hctx, hs, getUserSession, initializeUserClient, hnew, hdev,
            hid, hqr, hcon, Option.isSome_none, Bool.false_eq_true, if_false, Bool.and_self,
            Bool.false_and, World.setSession, World.call]
          rw [h1]
          simp
        · rw [pairingCalls_append, pairingCalls_append, h2]
          simp [pairingCalls]

/-- C13 (amended), witness: a new tenant on the simulated library. -/
theorem getQRCode_subscribes_before_connect_witness :
    ∃ extra,
      (GetQRCode (simLib [] none) (NewService SimClient 0) (ginContextFor 7)).2.trace =
        (NewService SimClient 0).trace ++ extra ∧
      pairingCalls 7 extra = [.getQRChannel 7, .clientConnect 7] :=
  (getQRCode_subscribes_before_connect (simLib [] none) (NewService SimClient 0)
    (ginContextFor 7) 7 rfl).2 rfl { handle := 7 } { handle := 7 } rfl rfl rfl

theorem qrLoop_skip (userID : Nat) (w : World C) (s : UserSession C)
    (pre rest : List QRChannelItem) (hpre : ∀ e ∈ pre, isTerminalEvent e = false) :
    qrLoop userID w s (pre ++ rest) = qrLoop userID w s rest := by
  induction pre with
  | nil => rfl
  | cons e es ih =>
    have he := hpre e (List.mem_cons_self e es)
    simp only [isTerminalEvent, Bool.or_eq_false_iff, decide_eq_false_iff_not] at he
    obtain ⟨⟨⟨h1, h2⟩, h3⟩, h4⟩ := he
    simp only [List.cons_append, qrLoop, if_neg h1, if_neg h2, if_neg h3, if_neg h4]
    exact ih (fun x hx => hpre x (List.mem_cons_of_mem e hx))

theorem qrLoop_no_terminal (userID : Nat) (w : World C) (s : UserSession C)
    (items : List QRChannelItem) (h : ∀ e ∈ items, isTerminalEvent e = false) :
    qrLoop userID w s items = (.error "QR channel closed unexpectedly", w) := by
  have := qrLoop_skip userID w s items [] h
  simpa [qrLoop] using this

/-- C14: when `GetQRCode` consumes a finite pairing stream (new tenant, client without
identity, channel obtained, connect succeeded), its outcome is decided by the first item
whose kind is code, success, timeout or error, whatever items of other kinds precede it
and whatever follows it.  A code item returns its code; a success item returns the
success text and leaves the tenant's session in the registry with the connected flag
true, with no code item required before it; a timeout item fails with the expired error;
an error item fails with the pairing error carrying the upstream detail.  A stream with no
such item fails with the channel-closed error. -/
theorem getQRCode_first_terminal_event (lib : Whatsmeow C) (w : World C) (ctx : Context)
    (userID : Nat) (db : Container) (dev : Device) (items : List QRChannelItem) (c1 c2 : C)
    (hctx : getUserIDFromContext ctx = .ok userID) (hs : w.sessions userID = none)
    (hnew : lib.New userID = .ok db) (hdev : lib.GetFirstDevice db = .ok dev)
    (hid : lib.StoreID (lib.AddEventHandler (lib.NewClient dev)) = none)
    (hqr : lib.GetQRChannel (lib.AddEventHandler (lib.NewClient dev)) = (.ok items, c1))
    (hcon : lib.Connect c1 = (none, c2)) :
    (∀ pre evt rest, items = pre ++ evt :: rest →
        (∀ e ∈ pre, isTerminalEvent e = false) →
        (evt.Event = "code" → (GetQRCode lib w ctx).1 = .returned (.ok evt.Code)) ∧
        (evt.Event = "success" →
          (GetQRCode lib w ctx).1 =
              .returned (.ok ("User " ++ toString userID ++ " successfully connected")) ∧
            (GetQRCode lib w ctx).2.sessions userID =
              some { initializedSession userID db c2 with IsConnected := true }) ∧
        (evt.Event = "timeout" →
          (GetQRCode lib w ctx).1 = .returned (.error "QR code expired")) ∧
        (evt.Event = "error" →
          (GetQRCode lib w ctx).1 =
            .returned (.error ("QR code error: " ++ fmtError evt.Error)))) ∧
      ((∀ e ∈ items, isTerminalEvent e = false) →
        (GetQRCode lib w ctx).1 = .returned (.error "QR channel closed unexpectedly")) := by
  obtain ⟨w1, -, -, hrun⟩ := getQRCode_new_session lib w ctx userID db dev items c1 c2 hctx hs
    hnew hdev hid hqr hcon
  refine ⟨?_, ?_⟩
  · intro pre evt rest hsplit hpre
    rw [hrun, hsplit, qrLoop_skip userID w1 _ pre (evt :: rest) hpre]
    refine ⟨?_, ?_, ?_, ?_⟩
    · intro hk
      simp [qrLoop, hk]
    · intro hk
      have h1 : ¬ evt.Event = "code" := by rw [hk]; decide
      rw [show qrLoop userID w1 (initializedSession userID db c2) (evt :: rest) =
        (.ok ("User " ++ toString userID ++ " successfully connected"),
          (updateSessionStatus
            (w1.setSession userID { initializedSession userID db c2 with IsConnected := true })
            userID true true).setSession userID
            { initializedSession userID db c2 with IsConnected := true }) by
        simp only [qrLoop, if_neg h1, if_pos hk]]
      exact ⟨rfl, by simp [World.setSession]⟩
    · intro hk
      have h1 : ¬ evt.Event = "code" := by rw [hk]; decide
      have h2 : ¬ evt.Event = "success" := by rw [hk]; decide
      simp only [qrLoop, if_neg h1, if_neg h2, if_pos hk]
    · intro hk
      have h1 : ¬ evt.Event = "code" := by rw [hk]; decide
      have h2 : ¬ evt.Event = "success" := by rw [hk]; decide
      have h3 : ¬ evt.Event = "timeout" := by rw [hk]; decide
      simp only [qrLoop, if_neg h1, if_neg h2, if_neg h3, if_pos hk]
  · intro hnone
    rw [hrun, qrLoop_no_terminal userID w1 _ items hnone]

/-- C14, witness: a stream that yields an item of an unknown kind and then a success
item, on the simulated library. -/
theorem getQRCode_first_terminal_event_witness :
    (GetQRCode
        (simLib [{ Event := "ref", Code := "", Error := none },
                 { Event := "success", Code := "", Error := none }] none)
        (NewService SimClient 0) (ginContextFor 7)).1 =
      .returned (.ok ("User " ++ toString 7 ++ " successfully connected")) :=
  (((getQRCode_first_terminal_event
      (simLib [{ Event := "ref", Code := "", Error := none },
               { Event := "success", Code := "", Error := none }] none)
      (NewService SimClient 0) (ginContextFor 7) 7 { handle := 7 } { handle := 7 }
      [{ Event := "ref", Code := "", Error := none },
       { Event := "success", Code := "", Error := none }]
      { identity := none, connected := false,
        pairing := [{ Event := "ref", Code := "", Error := none },
                    { Event := "success", Code := "", Error := none }] }
      { identity := none, connected := true,
        pairing := [{ Event := "ref", Code := "", Error := none },
                    { Event := "success", Code := "", Error := none }] }
      rfl rfl rfl rfl rfl rfl rfl).1
    [{ Event := "ref", Code := "", Error := none }]
    { Event := "success", Code := "", Error := none } [] rfl
    (by decide)).2.1 rfl).1

/-- C15 (counterexample): the pairing stream of a new tenant yields the single item
`code("ABC123")` and closes.  `GetQRCode` returns the code; it does not fail with the
channel-closed error. -/
theorem getQRCode_code_then_close_returns_code :
    (GetQRCode (simLib [{ Event := "code", Code := "ABC123", Error := none }] none)
        (NewService SimClient 0) (ginContextFor 1)).1 = .returned (.ok "ABC123") ∧
      (GetQRCode (simLib [{ Event := "code", Code := "ABC123", Error := none }] none)
        (NewService SimClient 0) (ginContextFor 1)).1 ≠
        .returned (.error "QR channel closed unexpectedly") := by
  refine ⟨rfl, ?_⟩
  decide

/-- C15 (amended): for every code value, when the pairing stream yields a single code
item and then closes without a success or timeout item, `GetQRCode` returns that code:
the loop returns at the code item and never observes the close. -/
theorem getQRCode_single_code (lib : Whatsmeow C) (w : World C) (ctx : Context)
    (userID : Nat) (db : Container) (dev : Device) (evt : QRChannelItem) (c1 c2 : C)
    (hctx : getUserIDFromContext ctx = .ok userID) (hs : w.sessions userID = none)
    (hnew : lib.New userID = .ok db) (hdev : lib.GetFirstDevice db = .ok dev)
    (hid : lib.StoreID (lib.AddEventHandler (lib.NewClient dev)) = none)
    (hqr : lib.GetQRChannel (lib.AddEventHandler (lib.NewClient dev)) = (.ok [evt], c1))
    (hcon : lib.Connect c1 = (none, c2)) (hkind : evt.Event = "code") :
    (GetQRCode lib w ctx).1 = .returned (.ok evt.Code) := by
  obtain ⟨w1, -, -, hrun⟩ := getQRCode_new_session lib w ctx userID db dev [evt] c1 c2 hctx hs
    hnew hdev hid hqr hcon
  rw [hrun]
  simp [qrLoop, hkind]

/-- C15 (amended), witness: the stream `code("ABC123")` on the simulated library. -/
theorem getQRCode_single_code_witness :
    (GetQRCode (simLib [{ Event := "code", Code := "ABC123", Error := none }] none)
        (NewService SimClient 0) (ginContextFor 1)).1 = .returned (.ok "ABC123") :=
  getQRCode_single_code (simLib [{ Event := "code", Code := "ABC123", Error := none }] none)
    (NewService SimClient 0) (ginContextFor 1) 1 { handle := 1 } { handle := 1 }
    { Event := "code", Code := "ABC123", Error := none }
    { identity := none, connected := false,
      pairing := [{ Event := "code", Code := "ABC123", Error := none }] }
    { identity := none, connected := true,
      pairing := [{ Event := "code", Code := "ABC123", Error := none }] }
    rfl rfl rfl rfl rfl rfl rfl rfl

/-- C16 (the code departs from the claim): the pairing stream of new tenant 1 yields a
timeout item (respectively an error item).  `GetQRCode` fails, yet the tenant's session
stays in the registry, and the next `GetQRCode` returns the pairing-in-progress text
without obtaining a channel or connecting again: no fresh pairing attempt is started. -/
theorem getQRCode_failure_keeps_session :
    (GetQRCode (simLib [{ Event := "timeout", Code := "", Error := none }] none)
        (NewService SimClient 0) (ginContextFor 1)).1 =
        .returned (.error "QR code expired") ∧
      ((GetQRCode (simLib [{ Event := "timeout", Code := "", Error := none }] none)
        (NewService SimClient 0) (ginContextFor 1)).2.sessions 1).isSome = true ∧
      (GetQRCode (simLib [{ Event := "timeout", Code := "", Error := none }] none)
        (GetQRCode (simLib [{ Event := "timeout", Code := "", Error := none }] none)
          (NewService SimClient 0) (ginContextFor 1)).2 (ginContextFor 1)) =
        (.returned (.ok (msgPairingInProgress 1)),
          (GetQRCode (simLib [{ Event := "timeout", Code := "", Error := none }] none)
            (NewService SimClient 0) (ginContextFor 1)).2) ∧
      (GetQRCode
        (simLib [{ Event := "error", Code := "", Error := some "unexpected state" }] none)
        (NewService SimClient 0) (ginContextFor 1)).1 =
        .returned (.error "QR code error: unexpected state") ∧
      ((GetQRCode
        (simLib [{ Event := "error", Code := "", Error := some "unexpected state" }] none)
        (NewService SimClient 0) (ginContextFor 1)).2.sessions 1).isSome = true := by
  refine ⟨rfl, rfl, rfl, rfl, rfl⟩

/-! ## Media dispatch -/

theorem hasPrefix_iff (s pre : String) :
    HasPrefix s pre = true ↔ ∃ rest : String, s = pre ++ rest := by
  unfold HasPrefix
  rw [List.isPrefixOf_iff_prefix]
  constructor
  · rintro ⟨t, ht⟩
    refine ⟨String.mk t, ?_⟩
    apply String.ext
    simp [String.data_append, ht]
  · rintro ⟨rest, hrest⟩
    exact ⟨rest.data, by rw [hrest, String.data_append]⟩

theorem hasPrefix_excl (s a b : String) (ha : HasPrefix s a = true)
    (hne : a.data.head? ≠ b.data.head?) (hb0 : b.data ≠ []) (ha0 : a.data ≠ []) :
    HasPrefix s b = false := by
  unfold HasPrefix at *
  cases hs : s.data with
  | nil =>
    cases hbd : b.data with
    | nil => exact absurd hbd hb0
    | cons y ys => simp [List.isPrefixOf]
  | cons x xs =>
    cases had : a.data with
    | nil => exact absurd had ha0
    | cons y ys =>
      cases hbd : b.data with
      | nil => exact absurd hbd hb0
      | cons z zs =>
        rw [hs, had] at ha
        rw [had, hbd] at hne
        simp only [List.isPrefixOf, Bool.and_eq_true, beq_iff_eq] at ha
        simp only [List.head?_cons, ne_eq, Option.some.injEq] at hne
        simp only [List.isPrefixOf, Bool.and_eq_false_iff, beq_eq_false_iff_ne]
        left
        rw [← ha.1]
        exact fun h => hne h.symm

/-- C17: the MIME classification of `SendMediaMessage` is image exactly for the strings
that start with `image/`, video exactly for those that start with `video/`, audio exactly
for those that start with `audio/`, and document exactly for all others; it is a function
of the string, so every string gets exactly one class.  In particular `image/png` is an
image and `application/pdf` is a document. -/
theorem mediaTypeOf_classifies (mimeType : String) :
    (mediaTypeOf mimeType = .MediaImage ↔ ∃ rest : String, mimeType = "image/" ++ rest) ∧
      (mediaTypeOf mimeType = .MediaVideo ↔ ∃ rest : String, mimeType = "video/" ++ rest) ∧
      (mediaTypeOf mimeType = .MediaAudio ↔ ∃ rest : String, mimeType = "audio/" ++ rest) ∧
      (mediaTypeOf mimeType = .MediaDocument ↔
        (¬ ∃ rest : String, mimeType = "image/" ++ rest) ∧
        (¬ ∃ rest : String, mimeType = "video/" ++ rest) ∧
        (¬ ∃ rest : String, mimeType = "audio/" ++ rest)) ∧
      mediaTypeOf "image/png" = .MediaImage ∧
      mediaTypeOf "application/pdf" = .MediaDocument := by
  simp only [← hasPrefix_iff]
  have hiv : HasPrefix mimeType "image/" = true → HasPrefix mimeType "video/" = false :=
    fun h => hasPrefix_excl mimeType "image/" "video/" h (by decide) (by decide) (by decide)
  have hia : HasPrefix mimeType "image/" = true → HasPrefix mimeType "audio/" = false :=
    fun h => hasPrefix_excl mimeType "image/" "audio/" h (by decide) (by decide) (by decide)
  have hva : HasPrefix mimeType "video/" = true → HasPrefix mimeType "audio/" = false :=
    fun h => hasPrefix_excl mimeType "video/" "audio/" h (by decide) (by decide) (by decide)
  refine ⟨?_, ?_, ?_, ?_, by decide, by decide⟩
  all_goals
    unfold mediaTypeOf
    cases hi : HasPrefix mimeType "image/" <;>
    cases hv : HasPrefix mimeType "video/" <;>
    cases ha : HasPrefix mimeType "audio/" <;>
    simp_all

/-- C18: for a media request that passes the four precondition checks, has a valid
recipient, and whose upload succeeds, `SendMediaMessage` uploads once and then sends one
payload.  The payload has exactly one media variant, the one of the MIME class; its URL,
content hashes, length, direct path and media key are those of the upload result, its
MIME type and caption (title for a document) are those of the request; an image carries
the request's height and width, a video carries none (audio and document payloads have no
such fields). -/
theorem sendMediaMessage_payload (lib : Whatsmeow C) (w : World C) (ctx : Context)
    (userID : Nat) (s : UserSession C) (c c1 : C) (req : SendMediaMessageDTO)
    (recipient : JID) (uploaded : UploadResponse)
    (hctx : getUserIDFromContext ctx = .ok userID)
    (hs : w.sessions userID = some s) (hc : s.Client = some c)
    (hid : lib.StoreID c ≠ none) (hconn : lib.IsConnected c = true)
    (hflag : s.IsConnected = true)
    (hphone : formatPhoneNumber req.PhoneNumber = .ok recipient)
    (hup : lib.Upload c req.MediaData (mediaTypeOf req.MimeType) = (.ok uploaded, c1)) :
    ∃ msg : Message,
      (SendMediaMessage lib w ctx req).2.trace =
        w.trace ++ [.upload userID req.MediaData (mediaTypeOf req.MimeType),
          .sendMessage userID recipient msg] ∧
      msg.Conversation = none ∧ msg.ExtendedTextMessage = none ∧
      (match mediaTypeOf req.MimeType with
       | .MediaImage =>
         msg.VideoMessage = none ∧ msg.AudioMessage = none ∧ msg.DocumentMessage = none ∧
         ∃ m, msg.ImageMessage = some m ∧
           m.URL = some uploaded.URL ∧ m.Mimetype = some req.MimeType ∧
           m.Caption = some req.Caption ∧ m.FileSHA256 = uploaded.FileSHA256 ∧
           m.FileLength = some uploaded.FileLength ∧
           m.DirectPath = some uploaded.DirectPath ∧ m.MediaKey = uploaded.MediaKey ∧
           m.FileEncSHA256 = uploaded.FileEncSHA256 ∧
           m.Height = some req.Height ∧ m.Width = some req.Width
       | .MediaVideo =>
         msg.ImageMessage = none ∧ msg.AudioMessage = none ∧ msg.DocumentMessage = none ∧
         ∃ m, msg.VideoMessage = some m ∧
           m.URL = some uploaded.URL ∧ m.Mimetype = some req.MimeType ∧
           m.Caption = some req.Caption ∧ m.FileSHA256 = uploaded.FileSHA256 ∧
           m.FileLength = some uploaded.FileLength ∧
           m.DirectPath = some uploaded.DirectPath ∧ m.MediaKey = uploaded.MediaKey ∧
           m.FileEncSHA256 = uploaded.FileEncSHA256 ∧
           m.Height = none ∧ m.Width = none
       | .MediaAudio =>
         msg.ImageMessage = none ∧ msg.VideoMessage = none ∧ msg.DocumentMessage = none ∧
         ∃ m, msg.AudioMessage = some m ∧
           m.URL = some uploaded.URL ∧ m.Mimetype = some req.MimeType ∧
           m.FileSHA256 = uploaded.FileSHA256 ∧
           m.FileLength = some uploaded.FileLength ∧
           m.DirectPath = some uploaded.DirectPath ∧ m.MediaKey = uploaded.MediaKey ∧
           m.FileEncSHA256 = uploaded.FileEncSHA256
       | .MediaDocument =>
         msg.ImageMessage = none ∧ msg.VideoMessage = none ∧ msg.AudioMessage = none ∧
         ∃ m, msg.DocumentMessage = some m ∧
           m.URL = some uploaded.URL ∧ m.Mimetype = some req.MimeType ∧
           m.Title = some req.Caption ∧ m.FileSHA256 = uploaded.FileSHA256 ∧
           m.FileLength = some uploaded.FileLength ∧
           m.DirectPath = some uploaded.DirectPath ∧ m.MediaKey = uploaded.MediaKey ∧
           m.FileEncSHA256 = uploaded.FileEncSHA256) := by
  have hid' : (lib.StoreID c).isNone = false := by
    cases h : lib.StoreID c with
    | none => exact absurd h hid
    | some j => rfl
  refine ⟨mediaMessage (mediaTypeOf req.MimeType) req uploaded, ?_, ?_, ?_, ?_⟩
  · rcases hsend : lib.SendMessage c1 recipient
        (mediaMessage (mediaTypeOf req.MimeType) req uploaded) with ⟨e | resp, c2⟩ <;>
      simp [SendMediaMessage, hctx, hs, hc, hid', hconn, hflag, hphone, hup, hsend,
        World.call, World.setSession]
  · cases mediaTypeOf req.MimeType <;> rfl
  · cases mediaTypeOf req.MimeType <;> rfl
  · cases mediaTypeOf req.MimeType <;> simp [mediaMessage]

/-- C18, witness: a PNG image sent over a connected, paired session of the simulated
library. -/
theorem sendMediaMessage_payload_witness :
    ∃ msg : Message,
      (SendMediaMessage (simLib [] none)
          (simWorld 7 (some (NewJID "15551234567" DefaultUserServer)) true true)
          (ginContextFor 7)
          { PhoneNumber := "+1 (555) 123-4567", Caption := "cat", MediaData := [1, 2, 3],
            MimeType := "image/png", Height := 480, Width := 640 }).2.trace =
        [.upload 7 [1, 2, 3] .MediaImage,
          .sendMessage 7 (NewJID "15551234567" DefaultUserServer) msg] ∧
      ∃ m, msg.ImageMessage = some m ∧ m.Height = some 480 ∧ m.Width = some 640 := by
  obtain ⟨msg, htr, -, -, hm⟩ := sendMediaMessage_payload (simLib [] none)
    (simWorld 7 (some (NewJID "15551234567" DefaultUserServer)) true true)
    (ginContextFor 7) 7
    (simSession 7 (some (NewJID "15551234567" DefaultUserServer)) true true)
    { identity := some (NewJID "15551234567" DefaultUserServer), connected := true,
      pairing := [] }
    { identity := some (NewJID "15551234567" DefaultUserServer), connected := true,
      pairing := [] }
    { PhoneNumber := "+1 (555) 123-4567", Caption := "cat", MediaData := [1, 2, 3],
      MimeType := "image/png", Height := 480, Width := 640 }
    (NewJID "15551234567" DefaultUserServer)
    { URL := "https://mmg.whatsapp.net/m1", DirectPath := "/m1", MediaKey := [1],
      FileEncSHA256 := [2], FileSHA256 := [3], FileLength := 3 }
    rfl (by simp [simWorld, World.setSession]) rfl (by simp [simLib]) rfl rfl
    (by decide) rfl
  have hk : mediaTypeOf "image/png" = .MediaImage := by decide
  simp only [hk] at hm htr
  obtain ⟨-, -, -, m, h1, -, -, -, -, -, -, -, -, h2, h3⟩ := hm
  exact ⟨msg, by simpa [simWorld, World.setSession, NewService] using htr, m, h1, h2, h3⟩

/-! ## Status -/

/-- C19: when the tenant has an in-memory session with a client, the answer of `GetStatus`
does not depend on the durable table (the row is only rewritten from the live state).
When the tenant has no session, or a session without a client, `GetStatus` leaves the
state, the durable table included, as it was, and answers from the tenant's row alone: no
row, or a row with both flags false, gives `Not initialized`; a logged-in row gives the
session-expired text; a connected, not logged-in row gives the previous-session text. -/
theorem getStatus_durable_fallback (lib : Whatsmeow C) (w : World C) (ctx : Context)
    (userID : Nat) (hctx : getUserIDFromContext ctx = .ok userID) :
    (∀ s c, w.sessions userID = some s → s.Client = some c →
        ∀ table, (GetStatus lib { w with db := table } ctx).1 = (GetStatus lib w ctx).1) ∧
      ((w.sessions userID = none ∨ ∃ s, w.sessions userID = some s ∧ s.Client = none) →
        (GetStatus lib w ctx).2 = w ∧
        (w.db userID = none → (GetStatus lib w ctx).1 = .ok "Not initialized") ∧
        (∀ row, w.db userID = some row →
          (row.IsLoggedIn = true →
            (GetStatus lib w ctx).1 =
              .ok "Logged in but session expired (restart needed)") ∧
          (row.IsLoggedIn = false → row.IsConnected = true →
            (GetStatus lib w ctx).1 = .ok "Previous session existed but expired") ∧
          (row.IsLoggedIn = false → row.IsConnected = false →
            (GetStatus lib w ctx).1 = .ok "Not initialized"))) := by
  refine ⟨?_, ?_⟩
  · intro s c hs hc table
    simp only [GetStatus, hctx, hs, hc]
    split_ifs <;> rfl
  · intro h
    have hfall : GetStatus lib w ctx = statusFromRecord w userID := by
      rcases h with h | ⟨s, hs, hc⟩
      · simp [GetStatus, hctx, h]
      · simp [GetStatus, hctx, hs, hc]
    rw [hfall]
    refine ⟨?_, ?_, ?_⟩
    · unfold statusFromRecord dbFirst
      cases hrow : w.db userID with
      | none => rfl
      | some row => simp only []; split_ifs <;> rfl
    · intro hrow
      simp [statusFromRecord, dbFirst, hrow]
    · intro row hrow
      refine ⟨?_, ?_, ?_⟩
      · intro h1
        simp [statusFromRecord, dbFirst, hrow, h1]
      · intro h1 h2
        simp [statusFromRecord, dbFirst, hrow, h1, h2]
      · intro h1 h2
        simp [statusFromRecord, dbFirst, hrow, h1, h2]

/-- C19, witness: a tenant without a session whose durable row says logged in. -/
theorem getStatus_durable_fallback_witness :
    (GetStatus (simLib [] none)
        { NewService SimClient 0 with
          db := fun _ => some { IsConnected := true, IsLoggedIn := true, LastActiveAt := 0 } }
        (ginContextFor 7)).1 = .ok "Logged in but session expired (restart needed)" :=
  (((getStatus_durable_fallback (simLib [] none)
      { NewService SimClient 0 with
        db := fun _ => some { IsConnected := true, IsLoggedIn := true, LastActiveAt := 0 } }
      (ginContextFor 7) 7 rfl).2 (Or.inl rfl)).2.2
    { IsConnected := true, IsLoggedIn := true, LastActiveAt := 0 } rfl).1 rfl

/-! ## Caller context -/

/-- C20: when the caller context is not a gin context, or holds no tenant id, or holds one
that is not an unsigned integer, each of the eight public operations fails with the
authentication-required error (carrying the reason) and the state is as before: registry,
sessions, durable table and trace are unchanged. -/
theorem op_without_tenant_id (lib : Whatsmeow C) (w : World C) (ctx : Context) (op : Op)
    (h : ctx = .other ∨ ∃ keys, ctx = .gin keys ∧
      (keys CurrentUserId = none ∨ keys CurrentUserId = some .other)) :
    (runOp lib w ctx op).2 = w ∧
      ∃ e, e ∈ ["invalid context type", "user ID not found in context",
          "invalid user ID type in context"] ∧
        (runOp lib w ctx op).1.err = some ("authentication required: " ++ e) := by
  have hctx : ∃ e, e ∈ ["invalid context type", "user ID not found in context",
      "invalid user ID type in context"] ∧ getUserIDFromContext ctx = .error e := by
    rcases h with h | ⟨keys, h, hk | hk⟩
    · exact ⟨"invalid context type", by simp, by rw [h]; rfl⟩
    · exact ⟨"user ID not found in context", by simp, by simp [h, getUserIDFromContext, hk]⟩
    · exact ⟨"invalid user ID type in context", by simp,
        by simp [h, getUserIDFromContext, hk]⟩
  obtain ⟨e, he, hctx⟩ := hctx
  refine ⟨?_, e, he, ?_⟩
  · cases op <;>
      simp [runOp, Connect, Disconnect, SendMessage, SendMediaMessage, GetQRCode,
        CheckConnection, GetStatus, GetContacts, hctx]
  · cases op <;>
      simp [runOp, Connect, Disconnect, SendMessage, SendMediaMessage, GetQRCode,
        CheckConnection, GetStatus, GetContacts, hctx, OpResult.err, errAuthRequired]

/-- C20, witness: `Disconnect` called with a context that is not a gin context. -/
theorem op_without_tenant_id_witness :
    (runOp (simLib [] none) (simWorld 7 none false false) .other .Disconnect).2 =
      simWorld 7 none false false :=
  (op_without_tenant_id (simLib [] none) (simWorld 7 none false false) .other .Disconnect
    (Or.inl rfl)).1

/-! ## Registry invariant -/

theorem wf_of_sessions_eq (w w1 : World C) (h : registryWellFormed w)
    (heq : w1.sessions = w.sessions) : registryWellFormed w1 := by
  intro u s hs
  rw [heq] at hs
  exact h u s hs

theorem wf_of_update (w w1 : World C) (h : registryWellFormed w) (u : Nat)
    (s : UserSession C) (heq : w1.sessions = Function.update w.sessions u (some s))
    (hid : s.UserID = u) (hc : s.Client.isSome = true) : registryWellFormed w1 := by
  intro v t ht
  rw [heq] at ht
  by_cases hv : v = u
  · subst hv
    simp at ht
    subst ht
    exact ⟨hid, hc⟩
  · rw [Function.update_noteq hv] at ht
    exact h v t ht

theorem wf_of_erase (w w1 : World C) (h : registryWellFormed w) (u : Nat)
    (heq : w1.sessions = Function.update w.sessions u none) : registryWellFormed w1 := by
  intro v t ht
  rw [heq] at ht
  by_cases hv : v = u
  · subst hv
    simp at ht
  · rw [Function.update_noteq hv] at ht
    exact h v t ht

theorem wf_updateSessionStatus (w : World C) (h : registryWellFormed w) (u : Nat)
    (a b : Bool) : registryWellFormed (updateSessionStatus w u a b) :=
  wf_of_sessions_eq w _ h (updateSessionStatus_sessions w u a b)

theorem wf_Connect (lib : Whatsmeow C) (w : World C) (ctx : Context)
    (h : registryWellFormed w) : registryWellFormed (Connect lib w ctx).2 := by
  cases hctx : getUserIDFromContext ctx with
  | error e => simp only [Connect, hctx]; exact h
  | ok userID =>
    cases hs : w.sessions userID with
    | none => simp only [Connect, hctx, hs]; exact h
    | some session =>
      have hu := (h userID session hs).1
      cases hc : session.Client with
      | none =>
        simp only [Connect, hctx, hs, hc]
        split_ifs <;> exact h
      | some client =>
        rcases hcon : lib.Connect client with ⟨_ | e, c1⟩
        · simp only [Connect, hctx, hs, hc, hcon]
          split_ifs
          · exact h
          · apply wf_updateSessionStatus
            exact wf_of_update w _ h userID _ rfl hu rfl
          · apply wf_updateSessionStatus
            exact wf_of_update w _ h userID _ rfl hu rfl
          · exact h
        · simp only [Connect, hctx, hs, hc, hcon]
          split_ifs
          · exact h
          · exact wf_of_update w _ h userID _ rfl hu rfl
          · apply wf_updateSessionStatus
            exact wf_of_update w _ h userID _ rfl hu rfl
          · exact h

theorem wf_Disconnect (w : World C) (ctx : Context) (h : registryWellFormed w) :
    registryWellFormed (Disconnect w ctx).2 := by
  cases hctx : getUserIDFromContext ctx with
  | error e => simp only [Disconnect, hctx]; exact h
  | ok userID =>
    simp only [Disconnect, hctx]
    exact wf_of_erase w _ h userID (removeUserSession_sessions w userID)

theorem wf_SendMessage (lib : Whatsmeow C) (w : World C) (ctx : Context)
    (req : SendMessageDTO) (h : registryWellFormed w) :
    registryWellFormed (SendMessage lib w ctx req).2 := by
  cases hctx : getUserIDFromContext ctx with
  | error e => simp only [SendMessage, hctx]; exact h
  | ok userID =>
    cases hs : w.sessions userID with
    | none => simp only [SendMessage, hctx, hs]; exact h
    | some session =>
      have hu := (h userID session hs).1
      cases hc : session.Client with
      | none => simp only [SendMessage, hctx, hs, hc]; exact h
      | some client =>
        cases hp : formatPhoneNumber req.PhoneNumber with
        | error e =>
          simp only [SendMessage, hctx, hs, hc, hp]
          split_ifs <;> exact h
        | ok recipient =>
          rcases hsend : lib.SendMessage client recipient { Conversation := some req.Message }
            with ⟨e | resp, c1⟩ <;>
          · simp only [SendMessage, hctx, hs, hc, hp, hsend]
            split_ifs
            · exact h
            · exact h
            · exact h
            · exact wf_of_update w _ h userID _ rfl hu rfl

theorem wf_SendMediaMessage (lib : Whatsmeow C) (w : World C) (ctx : Context)
    (req : SendMediaMessageDTO) (h : registryWellFormed w) :
    registryWellFormed (SendMediaMessage lib w ctx req).2 := by
  cases hctx : getUserIDFromContext ctx with
  | error e => simp only [SendMediaMessage, hctx]; exact h
  | ok userID =>
    cases hs : w.sessions userID with
    | none => simp only [SendMediaMessage, hctx, hs]; exact h
    | some session =>
      have hu := (h userID session hs).1
      cases hc : session.Client with
      | none => simp only [SendMediaMessage, hctx, hs, hc]; exact h
      | some client =>
        cases hp : formatPhoneNumber req.PhoneNumber with
        | error e =>
          simp only [SendMediaMessage, hctx, hs, hc, hp]
          split_ifs <;> exact h
        | ok recipient =>
          rcases hup : lib.Upload client req.MediaData (mediaTypeOf req.MimeType) with
            ⟨e | uploaded, c1⟩
          · simp only [SendMediaMessage, hctx, hs, hc, hp, hup]
            split_ifs
            · exact h
            · exact h
            · exact h
            · exact wf_of_update w _ h userID _ rfl hu rfl
          · rcases hsend : lib.SendMessage c1 recipient
                (mediaMessage (mediaTypeOf req.MimeType) req uploaded) with
              ⟨e | resp, c2⟩ <;>
            · simp only [SendMediaMessage, hctx, hs, hc, hp, hup, hsend]
              split_ifs
              · exact h
              · exact h
              · exact h
              · exact wf_of_update w _ h userID _ rfl hu rfl

theorem wf_CheckConnection (lib : Whatsmeow C) (w : World C) (ctx : Context)
    (phoneNumber : String) (h : registryWellFormed w) :
    registryWellFormed (CheckConnection lib w ctx phoneNumber).2 := by
  unfold CheckConnection
  repeat' split
  all_goals exact h

theorem wf_GetStatus (lib : Whatsmeow C) (w : World C) (ctx : Context)
    (h : registryWellFormed w) : registryWellFormed (GetStatus lib w ctx).2 := by
  have hfall : ∀ u, registryWellFormed (statusFromRecord w u).2 := by
    intro u
    unfold statusFromRecord
    repeat' split
    all_goals exact h
  unfold GetStatus
  repeat' split
  all_goals first
    | exact h
    | exact hfall _
    | exact wf_updateSessionStatus w h _ _ _

theorem wf_GetContacts (lib : Whatsmeow C) (w : World C) (ctx : Context)
    (h : registryWellFormed w) : registryWellFormed (GetContacts lib w ctx).2 := by
  unfold GetContacts
  repeat' split
  all_goals exact h

theorem wf_qrLoop (userID : Nat) (w : World C) (session : UserSession C)
    (items : List QRChannelItem) (h : registryWellFormed w)
    (hid : session.UserID = userID) (hc : session.Client.isSome = true) :
    registryWellFormed (qrLoop userID w session items).2 := by
  induction items with
  | nil => exact h
  | cons evt rest ih =>
    simp only [qrLoop]
    split_ifs
    · exact wf_updateSessionStatus w h _ _ _
    · refine wf_of_update _ _ (wf_updateSessionStatus _
        (wf_of_update w _ h userID { session with IsConnected := true } rfl hid hc) _ _ _)
        userID { session with IsConnected := true } rfl hid hc
    · exact h
    · exact h
    · exact ih

theorem wf_GetQRCode (lib : Whatsmeow C) (w : World C) (ctx : Context)
    (h : registryWellFormed w) : registryWellFormed (GetQRCode lib w ctx).2 := by
  cases hctx : getUserIDFromContext ctx with
  | error e => simp only [GetQRCode, hctx]; exact h
  | ok userID =>
    cases hs : w.sessions userID with
    | some session =>
      have hc := (h userID session hs).2
      obtain ⟨client, hcl⟩ := Option.isSome_iff_exists.mp hc
      simp only [GetQRCode, hctx, hs, hcl, Option.isSome_some, Bool.true_and]
      split_ifs <;> exact h
    | none =>
      cases hnew : lib.New userID with
      | error e =>
        simp only [GetQRCode, hctx, hs, getUserSession, initializeUserClient, hnew]
        exact h
      | ok db =>
        cases hdev : lib.GetFirstDevice db with
        | error e =>
          simp only [GetQRCode, hctx, hs, getUserSession, initializeUserClient, hnew, hdev]
          exact h
        | ok dev =>
          have h1 : registryWellFormed
              (((updateSessionStatus
                ((((w.call (.sqlstoreNew userID)).call (.getFirstDevice userID)).call
                  (.newClient userID)).call (.addEventHandler userID)) userID false
                  false).call (.goEventProcessor userID)).setSession userID
                (initializedSession userID db (lib.AddEventHandler (lib.NewClient dev)))) :=
            wf_of_update _ _ (wf_updateSessionStatus
              ((((w.call (.sqlstoreNew userID)).call (.getFirstDevice userID)).call
                (.newClient userID)).call (.addEventHandler userID)) h userID false false)
              userID _ rfl rfl rfl
          cases hid : lib.StoreID (lib.AddEventHandler (lib.NewClient dev)) with
          | some j =>
            simp only [GetQRCode, hctx, hs, getUserSession, initializeUserClient, hnew, hdev,
              hid, Option.isSome_some, if_true, Option.isSome_none, Bool.false_eq_true,
              if_false, Bool.and_self, Bool.false_and]
            exact h1
          | none =>
            rcases hqr : lib.GetQRChannel (lib.AddEventHandler (lib.NewClient dev)) with
              ⟨e | items, c1⟩
            · simp only [GetQRCode, hctx, hs, getUserSession, initializeUserClient, hnew,
                hdev, hid, hqr, Option.isSome_none, Bool.false_eq_true, if_false,
                Bool.and_self, Bool.false_and]
              exact wf_of_update _ _ h1 userID _ rfl rfl rfl
            · rcases hcon : lib.Connect c1 with ⟨_ | e, c2⟩
              · simp only [GetQRCode, hctx, hs, getUserSession, initializeUserClient, hnew,
                  hdev, hid, hqr, hcon, Option.isSome_none, Bool.false_eq_true, if_false,
                  Bool.and_self, Bool.false_and]
                exact wf_qrLoop userID _ _ items
                  (wf_of_update _ _ h1 userID _ rfl rfl rfl) rfl rfl
              · simp only [GetQRCode, hctx, hs, getUserSession, initializeUserClient, hnew,
                  hdev, hid, hqr, hcon, Option.isSome_none, Bool.false_eq_true, if_false,
                  Bool.and_self, Bool.false_and]
                exact wf_of_update _ _ h1 userID _ rfl rfl rfl

/-- C21: in every state reachable from the empty registry through the public operations
(with the clock advancing and clients changing state in between), each tenant id has at
most one session, and the session stored under a tenant id carries that tenant id and a
client that is not nil. -/
theorem reachable_registry_wellformed (lib : Whatsmeow C) (w : World C)
    (h : Reachable lib w) :
    (∀ u s1 s2, w.sessions u = some s1 → w.sessions u = some s2 → s1 = s2) ∧
      (∀ u s, w.sessions u = some s → s.UserID = u ∧ s.Client ≠ none) := by
  have hwf : registryWellFormed w := by
    induction h with
    | init db users now => intro u s hs; exact absurd hs (by simp)
    | op w ctx op _ ih =>
      cases op with
      | Connect => exact wf_Connect lib w ctx ih
      | Disconnect => exact wf_Disconnect w ctx ih
      | SendMessage req => exact wf_SendMessage lib w ctx req ih
      | SendMediaMessage req => exact wf_SendMediaMessage lib w ctx req ih
      | GetQRCode => exact wf_GetQRCode lib w ctx ih
      | CheckConnection phoneNumber => exact wf_CheckConnection lib w ctx phoneNumber ih
      | GetStatus => exact wf_GetStatus lib w ctx ih
      | GetContacts => exact wf_GetContacts lib w ctx ih
    | tick w now _ ih => exact ih
    | register w id _ ih => exact ih
    | client w userID session c c1 _ hs hc ih =>
      exact wf_of_update w _ ih userID _ rfl (ih userID session hs).1 rfl
  refine ⟨?_, ?_⟩
  · intro u s1 s2 h1 h2
    rw [h1] at h2
    exact Option.some.inj h2
  · intro u s hs
    obtain ⟨h1, h2⟩ := hwf u s hs
    refine ⟨h1, ?_⟩
    intro hnone
    rw [hnone] at h2
    exact Bool.noConfusion h2

/-- C21, witness: the state after the first `GetQRCode` of tenant 7. -/
theorem reachable_registry_wellformed_witness :
    ∃ s, (runOp (simLib [{ Event := "code", Code := "ABC123", Error := none }] none)
        (NewService SimClient 0) (ginContextFor 7) .GetQRCode).2.sessions 7 = some s ∧
      s.UserID = 7 ∧ s.Client ≠ none :=
  ⟨_, rfl, (reachable_registry_wellformed
    (simLib [{ Event := "code", Code := "ABC123", Error := none }] none)
    (runOp (simLib [{ Event := "code", Code := "ABC123", Error := none }] none)
      (NewService SimClient 0) (ginContextFor 7) .GetQRCode).2
    (Reachable.op _ (ginContextFor 7) .GetQRCode (Reachable.init (fun _ => none) (fun userID => userID != 0) 0))).2 7 _
    rfl⟩

/-! ## Event processing -/

/-- C22: the text the event-processing loop extracts from an inbound event is the
conversation body when that body is not empty; otherwise the extended-text body when the
event has an extended-text part; otherwise the marker
`[Media or unsupported message type]`; an event without a message payload yields the
marker.  This is the content of the line the loop logs for the event. -/
theorem messageText_extracts (event : MessageEvent) :
    (∀ m c, event.Message = some m → m.Conversation = some c → c ≠ "" →
        messageText event = c) ∧
      (∀ m e, event.Message = some m →
        (m.Conversation = none ∨ m.Conversation = some "") →
        m.ExtendedTextMessage = some e → messageText event = e.Text) ∧
      (∀ m, event.Message = some m →
        (m.Conversation = none ∨ m.Conversation = some "") →
        m.ExtendedTextMessage = none →
        messageText event = "[Media or unsupported message type]") ∧
      (event.Message = none → messageText event = "[Media or unsupported message type]") ∧
      (∀ userID rest logs picks,
        eventProcessor
            { UserID := userID, EventChan := some { buf := event :: rest, closed := false },
              Done := false } logs (true :: picks) =
          eventProcessor
            { UserID := userID, EventChan := some { buf := rest, closed := false },
              Done := false }
            (logs ++ [.message userID event.Info.Source (messageText event)
              event.Info.Timestamp]) picks) := by
  refine ⟨?_, ?_, ?_, ?_, ?_⟩
  · intro m c hm hc hne
    simp [messageText, GetConversation, hm, hc, hne]
  · rintro m e hm (hc | hc) he <;>
      simp [messageText, GetConversation, GetExtendedTextMessage, GetText, hm, hc, he]
  · rintro m hm (hc | hc) he <;>
      simp [messageText, GetConversation, GetExtendedTextMessage, unsupportedMarker, hm, hc,
        he]
  · intro hm
    simp [messageText, hm, unsupportedMarker]
  · intro userID rest logs picks
    simp [eventProcessor, recvReady]

/-- C23 (the code departs from the claim): tenant 7 is torn down while one event is still
queued, so the context is cancelled and the channel closed.  Both cases of the `select`
can then proceed.  When the receive case is chosen the loop logs the queued event after
the cancellation, and when it is chosen once more it receives nil from the closed channel
and panics; only when the `Done` case is chosen does the loop return without logging. -/
theorem eventProcessor_after_cancel :
    tornDownRef
        { simSession 7 none false false with
          EventChan := some [{ Info := { Source := "15551234567@s.whatsapp.net",
                                          Timestamp := 1 },
                               Message := some { Conversation := some "hello" } }] } =
        { UserID := 7,
          EventChan := some
            { buf := [{ Info := { Source := "15551234567@s.whatsapp.net", Timestamp := 1 },
                        Message := some { Conversation := some "hello" } }],
              closed := true },
          Done := true } ∧
      (eventProcessor
        { UserID := 7,
          EventChan := some
            { buf := [{ Info := { Source := "15551234567@s.whatsapp.net", Timestamp := 1 },
                        Message := some { Conversation := some "hello" } }],
              closed := true },
          Done := true } [] [true]).2.2 =
        [.message 7 "15551234567@s.whatsapp.net" "hello" 1] ∧
      (eventProcessor
        { UserID := 7,
          EventChan := some
            { buf := [{ Info := { Source := "15551234567@s.whatsapp.net", Timestamp := 1 },
                        Message := some { Conversation := some "hello" } }],
              closed := true },
          Done := true } [] [true, true]).1 = .panicked ∧
      eventProcessor
        { UserID := 7,
          EventChan := some
            { buf := [{ Info := { Source := "15551234567@s.whatsapp.net", Timestamp := 1 },
                        Message := some { Conversation := some "hello" } }],
              closed := true },
          Done := true } [] [false] =
        (.returned,
          { UserID := 7,
            EventChan := some
              { buf := [{ Info := { Source := "15551234567@s.whatsapp.net", Timestamp := 1 },
                          Message := some { Conversation := some "hello" } }],
                closed := true },
            Done := true },
          [.stopped 7]) := by
  refine ⟨rfl, ?_, ?_, ?_⟩ <;> decide

/-- C24 (the code departs from the claim): after teardown closed the event queue of
tenant 7, `handleEvents` delivering a message event to that session panics (send on a
closed channel); on the live session the same call returns and queues the event. -/
theorem handleEvents_after_teardown_panics :
    handleEvents (tornDownRef (simSession 7 none false false))
        (.Message { Info := { Source := "15551234567@s.whatsapp.net", Timestamp := 1 },
                    Message := some { Conversation := some "hello" } }) =
        (.panicked, tornDownRef (simSession 7 none false false), []) ∧
      (handleEvents (liveRef (simSession 7 none false false))
        (.Message { Info := { Source := "15551234567@s.whatsapp.net", Timestamp := 1 },
                    Message := some { Conversation := some "hello" } })).1 = .returned := by
  decide

/-! ## Registration token -/

/-- C25 (the code departs from the claim): registering the first user stores the row under
id 1, yet the token `Register` returns carries the `id` claim 0, because `CreateUser`
receives the user by value and the assigned key never reaches `Register`.  The token
`Login` later issues for the same user carries the `id` claim 1. -/
theorem register_token_id_is_zero :
    (Auth.Register Auth.simAuthLib { rows := [], lastID := 0 }
        { Email := "ada@example.com", Password := "secret1", Name := "Ada",
          Surname := "Lovelace", Phone := "5551234567" }).1 = .ok "id=0;exp=86400" ∧
      (Auth.Register Auth.simAuthLib { rows := [], lastID := 0 }
        { Email := "ada@example.com", Password := "secret1", Name := "Ada",
          Surname := "Lovelace", Phone := "5551234567" }).2.rows.map (fun u => u.ID) = [1] ∧
      Auth.Login Auth.simAuthLib
        (Auth.Register Auth.simAuthLib { rows := [], lastID := 0 }
          { Email := "ada@example.com", Password := "secret1", Name := "Ada",
            Surname := "Lovelace", Phone := "5551234567" }).2
        { Email := "ada@example.com", Password := "secret1" } = .ok "id=1;exp=86400" := by
  decide

/-! ## Recipient normalisation, repeated -/

/-- C26 (the code departs from the claim): on the input `++1234567890` the function
`formatPhoneNumber` succeeds with the user part `+1234567890`, and applied to that user
part it returns a different one, `1234567890`; on `++123456789` it succeeds with
`+123456789`, and applied to that user part it fails. -/
theorem formatPhoneNumber_not_idempotent :
    formatPhoneNumber "++1234567890" = .ok (NewJID "+1234567890" DefaultUserServer) ∧
      formatPhoneNumber "+1234567890" = .ok (NewJID "1234567890" DefaultUserServer) ∧
      formatPhoneNumber "++123456789" = .ok (NewJID "+123456789" DefaultUserServer) ∧
      formatPhoneNumber "+123456789" = .error errTooShort := by
  decide

/-! ## Connection check -/

/-- C27: `CheckConnection` returns true exactly when the tenant has a session whose client
is transport-connected and has an identity, and false otherwise; the result does not
depend on the phone-number argument nor on the session's connected flag, and the state is
as before. -/
theorem checkConnection_iff (lib : Whatsmeow C) (w : World C) (ctx : Context)
    (userID : Nat) (phoneNumber : String)
    (hctx : getUserIDFromContext ctx = .ok userID) :
    (CheckConnection lib w ctx phoneNumber).2 = w ∧
      ((CheckConnection lib w ctx phoneNumber).1 = .ok true ↔
        ∃ s c, w.sessions userID = some s ∧ s.Client = some c ∧
          lib.IsConnected c = true ∧ lib.StoreID c ≠ none) ∧
      ((CheckConnection lib w ctx phoneNumber).1 = .ok true ∨
        (CheckConnection lib w ctx phoneNumber).1 = .ok false) ∧
      (∀ other : String,
        CheckConnection lib w ctx other = CheckConnection lib w ctx phoneNumber) ∧
      (∀ s flag, w.sessions userID = some s →
        (CheckConnection lib (w.setSession userID { s with IsConnected := flag }) ctx
          phoneNumber).1 = (CheckConnection lib w ctx phoneNumber).1) := by
  refine ⟨?_, ?_, ?_, ?_, ?_⟩
  · unfold CheckConnection
    repeat' split
    all_goals rfl
  · cases hs : w.sessions userID with
    | none => simp [CheckConnection, hctx, hs]
    | some s =>
      cases hc : s.Client with
      | none => simp [CheckConnection, hctx, hs, hc]
      | some c =>
        cases hcon : lib.IsConnected c <;> cases hid : lib.StoreID c <;>
          simp [CheckConnection, hctx, hs, hc, hcon, hid]
  · cases hs : w.sessions userID with
    | none => simp [CheckConnection, hctx, hs]
    | some s =>
      cases hc : s.Client with
      | none => simp [CheckConnection, hctx, hs, hc]
      | some c =>
        cases hcon : lib.IsConnected c <;> cases hid : lib.StoreID c <;>
          simp [CheckConnection, hctx, hs, hc, hcon, hid]
  · intro other
    rfl
  · intro s flag hs
    cases hc : s.Client with
    | none => simp [CheckConnection, hctx, hs, hc, World.setSession]
    | some c =>
      cases hcon : lib.IsConnected c <;> cases hid : lib.StoreID c <;>
        simp [CheckConnection, hctx, hs, hc, hcon, hid, World.setSession]

/-- C27, witness: a paired session with a live transport whose flag is unset. -/
theorem checkConnection_iff_witness :
    (CheckConnection (simLib [] none)
        (simWorld 7 (some (NewJID "15551234567" DefaultUserServer)) true false)
        (ginContextFor 7) "+1 (555) 123-4567").1 = .ok true :=
  (checkConnection_iff (simLib [] none)
    (simWorld 7 (some (NewJID "15551234567" DefaultUserServer)) true false)
    (ginContextFor 7) 7 "+1 (555) 123-4567" rfl).2.1.mpr
    ⟨simSession 7 (some (NewJID "15551234567" DefaultUserServer)) true false,
      { identity := some (NewJID "15551234567" DefaultUserServer), connected := true,
        pairing := [] },
      by simp [simWorld, World.setSession], rfl, rfl, by simp [simLib]⟩

end Claims

end WhatsApp
